import Mathlib

/-!
Verification development for the SAP smart-charging integration
(`SapSmartChargingIntegration.ts`).  The TypeScript source is shallowly
embedded: numbers are modelled as rationals, fallible operations return
`Except`, and external storage reads (transactions, vehicle catalog,
previously issued profiles, OCPP parameters) are passed in as explicit
lookup functions.  Helper lookups living in the repository's `Utils`
module (not part of the provided source) are modelled from the spec and
marked as such in their doc comments.
-/

namespace SapSmartCharging

/-- Connector status as used by `connectorIsCharging` in the source. -/
inductive CPStatus
  | Available
  | Preparing
  | Charging
  | SuspendedEV
  | SuspendedEVSE
  | Occupied
  | Finishing
  | Faulted
  deriving DecidableEq

/-- AC/DC current type of a charging station / charge point. -/
inductive CurrentType
  | AC
  | DC
  deriving DecidableEq

/-- Charge point: groups connectors that physically share a supply.
Carries the per-connector amperage / phase-count source of truth. -/
structure ChargePoint where
  chargePointID : String
  excludeFromPowerLimitation : Bool
  sharePowerToAllConnectors : Bool
  cannotChargeInParallel : Bool
  connectorIDs : List Nat
  amperage : ℚ
  numberOfConnectedPhase : Nat
  currentType : CurrentType
  efficiency : Option ℚ
  deriving DecidableEq

/-- Connector of a charging station.  `currentTransactionID = none` models
the JS falsy check on `connector.currentTransactionID`. -/
structure Connector where
  connectorId : Nat
  status : CPStatus
  chargePointID : Option String
  numberOfConnectedPhase : Nat
  amperage : ℚ
  currentType : CurrentType
  currentTransactionID : Option Nat
  deriving DecidableEq

/-- Charging station of a site area. -/
structure ChargingStation where
  id : String
  excludeFromSmartCharging : Bool
  maximumPower : ℚ
  voltage : ℚ
  chargePoints : List ChargePoint
  connectors : List Connector
  deriving DecidableEq

/-- Site area: capacity, voltage, phase count, stations. -/
structure SiteArea where
  name : String
  maximumPower : ℚ
  voltage : ℚ
  numberOfPhases : Nat
  chargingStations : List ChargingStation
  deriving DecidableEq

/-- Measured per-phase usage flags of a running transaction. -/
structure PhasesUsed where
  csPhase1 : Bool
  csPhase2 : Bool
  csPhase3 : Bool
  deriving DecidableEq

/-- Active charging session.  `timestampArrivalSecondsFromMidnight` models
the moment-diff of the session start against today's midnight. -/
structure Transaction where
  id : Nat
  chargeBoxID : String
  connectorId : Nat
  timestampArrivalSecondsFromMidnight : ℚ
  currentTotalConsumptionWh : ℚ
  currentInstantAmps : ℚ
  currentInstantWattsDC : ℚ
  phasesUsed : Option PhasesUsed
  carID : Option Nat
  deriving DecidableEq

/-- Vehicle AC converter data. -/
structure CarConverter where
  amperagePerPhase : ℚ
  deriving DecidableEq

/-- Vehicle catalog data. -/
structure CarCatalog where
  fastChargePowerMax : ℚ
  batteryCapacityFull : ℚ
  deriving DecidableEq

/-- Vehicle profile resolved from the car storage. -/
structure Car where
  converter : Option CarConverter
  carCatalog : Option CarCatalog
  deriving DecidableEq

/-- Settings injected into the integration (sticky limitation flag and
AC/DC buffer percentages). -/
structure Setting where
  stickyLimitation : Bool
  limitBufferAC : ℚ
  limitBufferDC : ℚ
  deriving DecidableEq

/-- External constants consumed by the integration: the configured
per-phase minimum current (`StaticLimitAmps.MIN_LIMIT_PER_PHASE`) and the
safe default DC efficiency percentage
(`Constants.DC_CHARGING_STATION_DEFAULT_EFFICIENCY_PERCENT`). -/
structure Consts where
  minLimitPerPhase : ℚ
  dcDefaultEffPercent : ℚ
  deriving DecidableEq

/-- Errors aborting a build (the source throws `BackendError`). -/
inductive BuildErr
  | invalidSiteArea
  | noActiveTransaction
  | transactionNotFound
  | chargePointNotFound
  | noPhases
  | noAmps
  | chargingStationNotFound
  | connectorNotFound
  deriving DecidableEq

/-- Modelled from the spec: `Utils.getChargePointFromID`, a pure lookup of
a charge point by identifier on the station. -/
def getChargePointFromID (cs : ChargingStation) (cpID : Option String) : Option ChargePoint :=
  match cpID with
  | none => none
  | some i => cs.chargePoints.find? (fun cp => cp.chargePointID == i)

/-- Modelled from the spec: `Utils.getConnectorFromID`, a pure lookup of a
connector by identifier on the station. -/
def getConnectorFromID (cs : ChargingStation) (cid : Nat) : Option Connector :=
  cs.connectors.find? (fun c => c.connectorId == cid)

/-- Modelled from the spec: `Utils.getChargingStationVoltage`. -/
def getChargingStationVoltage (cs : ChargingStation) : ℚ :=
  cs.voltage

/-- Modelled from the spec: `Utils.getChargingStationAmperage` with a
charge point argument returns that charge point's rated amperage (the
charge point is the per-connector amperage source of truth). -/
def getChargingStationAmperage (cp : ChargePoint) : ℚ :=
  cp.amperage

/-- Modelled from the spec: `Utils.getNumberOfConnectedPhases`; with a
charge point it reads the charge point, otherwise it resolves the
connector (preferring its charge point's data). -/
def getNumberOfConnectedPhases (cs : ChargingStation) (cp : Option ChargePoint) (cid : Nat) : Nat :=
  match cp with
  | some p => p.numberOfConnectedPhase
  | none =>
    match getConnectorFromID cs cid with
    | some c =>
      match getChargePointFromID cs c.chargePointID with
      | some p => p.numberOfConnectedPhase
      | none => c.numberOfConnectedPhase
    | none => 0

/-- Modelled from the spec: `Utils.getChargingStationAmperagePerPhase`,
the connector's amperage divided by its phase count. -/
def getChargingStationAmperagePerPhase (cs : ChargingStation) (cid : Nat) : ℚ :=
  match getConnectorFromID cs cid with
  | some c =>
    match getChargePointFromID cs c.chargePointID with
    | some p => p.amperage / (p.numberOfConnectedPhase : ℚ)
    | none => c.amperage / (c.numberOfConnectedPhase : ℚ)
  | none => 0

/-- Modelled from the spec: `Utils.getChargingStationCurrentType`
resolved through the connector and its charge point. -/
def getChargingStationCurrentType (cs : ChargingStation) (cid : Nat) : CurrentType :=
  match getConnectorFromID cs cid with
  | some c =>
    match getChargePointFromID cs c.chargePointID with
    | some p => p.currentType
    | none => c.currentType
  | none => CurrentType.AC

/-- Modelled from the spec: `Utils.convertWattToAmp`, converting a power
reading to current through the station voltage. -/
def convertWattToAmp (cs : ChargingStation) (watts : ℚ) : ℚ :=
  watts / getChargingStationVoltage cs

/-- Modelled from the spec: `Utils.roundTo(x, 3)`, the configured rounding
policy to three decimals. -/
def roundTo (x : ℚ) : ℚ :=
  ((round (x * 1000) : ℤ) : ℚ) / 1000

/-- `connectorIsCharging` from the source: the active-charging statuses. -/
def connectorIsCharging (c : Connector) : Bool :=
  c.status == CPStatus.Charging ||
  c.status == CPStatus.SuspendedEV ||
  c.status == CPStatus.SuspendedEVSE ||
  c.status == CPStatus.Occupied

/-- Result of `getConnectorNbrOfPhasesAndAmps`. -/
structure ConnectorAmps where
  numberOfConnectedPhase : Nat
  totalAmps : ℚ
  deriving DecidableEq

/-- `getConnectorNbrOfPhasesAndAmps` from the source: resolves a
connector's phase count and amperage, applying power sharing and
mutual-exclusion annihilation, then rejects a zero phase count or a zero
amperage. -/
def getConnectorNbrOfPhasesAndAmps (cs : ChargingStation) (c : Connector) :
    Except BuildErr ConnectorAmps :=
  match c.chargePointID with
  | some cpID =>
    match getChargePointFromID cs (some cpID) with
    | none => Except.error BuildErr.chargePointNotFound
    | some cp =>
      let phases := getNumberOfConnectedPhases cs (some cp) c.connectorId
      let amps := getChargingStationAmperage cp
      let amps :=
        if cp.sharePowerToAllConnectors || cp.cannotChargeInParallel then
          let charging :=
            (cp.connectorIDs.filterMap (fun cid => getConnectorFromID cs cid)).countP
              (fun cc => connectorIsCharging cc)
          if charging ≥ 1 then
            let amps1 := if cp.sharePowerToAllConnectors then amps / (charging : ℚ) else amps
            if cp.cannotChargeInParallel && decide (charging > 1) then 0 else amps1
          else amps
        else amps
      if phases = 0 then Except.error BuildErr.noPhases
      else if amps = 0 then Except.error BuildErr.noAmps
      else Except.ok ⟨phases, amps⟩
  | none =>
    if c.numberOfConnectedPhase = 0 then Except.error BuildErr.noPhases
    else if c.amperage = 0 then Except.error BuildErr.noAmps
    else Except.ok ⟨c.numberOfConnectedPhase, c.amperage⟩

/-- Connector leaf fuse (`OptimizerChargingStationConnectorFuse`). -/
structure ConnectorFuse where
  id : Nat
  fusePhase1 : ℚ
  fusePhase2 : ℚ
  fusePhase3 : ℚ
  phase1Connected : Bool
  phase2Connected : Bool
  phase3Connected : Bool
  deriving DecidableEq

/-- `buildChargingStationConnectorFuse` from the source: per-phase
capacity of the connector, with the DC grid-side correction (declared
efficiency divides by `e / 100`; the default branch divides by the raw
percent constant, exactly as the source does). -/
def buildChargingStationConnectorFuse (k : Consts) (cs : ChargingStation) (fuseID : Nat)
    (c : Connector) : Except BuildErr ConnectorFuse := do
  let ca ← getConnectorNbrOfPhasesAndAmps cs c
  let perPhase := ca.totalAmps / (ca.numberOfConnectedPhase : ℚ)
  let perPhase :=
    if getChargingStationCurrentType cs c.connectorId = CurrentType.DC then
      match getChargePointFromID cs c.chargePointID with
      | some cp =>
        match cp.efficiency with
        | some e => if e > 0 then perPhase / (e / 100) else perPhase / k.dcDefaultEffPercent
        | none => perPhase / k.dcDefaultEffPercent
      | none => perPhase / k.dcDefaultEffPercent
    else perPhase
  Except.ok
    { id := fuseID
      fusePhase1 := perPhase
      fusePhase2 := if ca.numberOfConnectedPhase > 1 then perPhase else 0
      fusePhase3 := if ca.numberOfConnectedPhase > 1 then perPhase else 0
      phase1Connected := true
      phase2Connected := ca.numberOfConnectedPhase > 1
      phase3Connected := ca.numberOfConnectedPhase > 1 }

/-- Station interior fuse (`OptimizerChargingStationFuse`). -/
structure StationFuse where
  id : Nat
  fusePhase1 : ℚ
  fusePhase2 : ℚ
  fusePhase3 : ℚ
  phase1Connected : Bool
  phase2Connected : Bool
  phase3Connected : Bool
  children : List ConnectorFuse
  deriving DecidableEq

/-- `buildChargingStationFuse` from the source. -/
def buildChargingStationFuse (fuseID : Nat) (s1 s2 s3 : ℚ)
    (children : List ConnectorFuse) : StationFuse :=
  { id := fuseID
    fusePhase1 := s1
    fusePhase2 := s2
    fusePhase3 := s3
    phase1Connected := true
    phase2Connected := s2 > 0
    phase3Connected := s3 > 0
    children := children }

/-- One period of a charging schedule: offset in seconds and current
limit in amps. -/
structure ChargingSchedulePeriod where
  startPeriod : Nat
  limit : ℚ
  deriving DecidableEq

/-- Charging schedule: absolute start (modelled in minutes), ordered
periods, total duration in seconds. -/
structure ChargingSchedule where
  startScheduleMinutes : ℚ
  chargingSchedulePeriod : List ChargingSchedulePeriod
  duration : Nat
  deriving DecidableEq

/-- OCPP profile payload of a charging profile. -/
structure Profile where
  chargingProfileId : Nat
  transactionId : Option Nat
  stackLevel : Nat
  chargingSchedule : ChargingSchedule
  deriving DecidableEq

/-- Charging profile issued for one connector. -/
structure ChargingProfile where
  chargingStationID : String
  connectorID : Nat
  chargePointID : Option String
  profile : Profile
  deriving DecidableEq

/-- Car model sent to the optimizer (`OptimizerCar`). -/
structure OptimizerCar where
  id : Nat
  canLoadPhase1 : Nat
  canLoadPhase2 : Nat
  canLoadPhase3 : Nat
  timestampArrival : ℚ
  carType : String
  maxCapacity : ℚ
  minLoadingState : ℚ
  startCapacity : ℚ
  minCurrent : ℚ
  minCurrentPerPhase : ℚ
  maxCurrent : ℚ
  maxCurrentPerPhase : ℚ
  suspendable : Bool
  immediateStart : Bool
  canUseVariablePower : Bool
  nameStationID : String
  nameConnectorId : Nat
  deriving DecidableEq

/-- `getCurrentSapSmartChargingProfileLimit` from the source: the limit
of the period the current instant falls into, `some (-1)` once the
profile is expired, `none` when the slot index is negative (the JS code
then reads an out-of-range array entry and obtains `undefined`). -/
def getCurrentSapSmartChargingProfileLimit (nowMinutes : ℚ) (p : ChargingProfile) : Option ℚ :=
  let sched := p.profile.chargingSchedule
  let currentSlot : ℤ := ⌊(nowMinutes - sched.startScheduleMinutes) / 15⌋
  if currentSlot < (sched.chargingSchedulePeriod.length : ℤ) then
    if 0 ≤ currentSlot then
      some (sched.chargingSchedulePeriod.getD currentSlot.toNat ⟨0, 0⟩).limit
    else none
  else some (-1)

/-- `checkIfCarIsIncreasingConsumption` from the source: compares the
vehicle's instantaneous draw against a buffered threshold derived from
the limit most recently assigned to this connector and session.  A `none`
profile limit models the JS `undefined` value, whose comparisons are all
false, so the function falls through to `false`. -/
def checkIfCarIsIncreasingConsumption (st : Setting) (profiles : List ChargingProfile)
    (nowMinutes : ℚ) (cs : ChargingStation) (tx : Transaction) (currentType : CurrentType)
    (car : OptimizerCar) (numberOfPhasesInProgress : ℚ) : Bool :=
  let matching := profiles.filter (fun p =>
    p.profile.transactionId == some tx.id &&
    p.chargingStationID == tx.chargeBoxID &&
    p.connectorID == tx.connectorId)
  match matching with
  | [p] =>
    match getCurrentSapSmartChargingProfileLimit nowMinutes p with
    | none => false
    | some currentLimit =>
      if currentLimit < 1 then true
      else
        let nCS : ℚ := (getNumberOfConnectedPhases cs none tx.connectorId : ℚ)
        if currentType = CurrentType.AC then
          let currentLimitPerPhase := currentLimit / nCS
          let threshold0 := currentLimitPerPhase / (1 + st.limitBufferAC / 100)
          let threshold := threshold0 + (currentLimitPerPhase - threshold0) * (1 / 5)
          decide (threshold < tx.currentInstantAmps / numberOfPhasesInProgress) &&
            decide (currentLimit / nCS < car.maxCurrentPerPhase)
        else
          let threshold0 := currentLimit / (1 + st.limitBufferDC / 100)
          let threshold := threshold0 + (currentLimit - threshold0) * (1 / 5)
          decide (threshold < convertWattToAmp cs tx.currentInstantWattsDC) &&
            decide (currentLimit < car.maxCurrentPerPhase)
  | _ => false

/-- Modelled from the spec:
`Utils.getNumberOfUsedPhasesInTransactionInProgress` counts the phases
reported in use by live meter data on an AC station, and returns `-1`
when no usable measured set exists. -/
def getNumberOfUsedPhasesInTransactionInProgress (cs : ChargingStation) (tx : Transaction) : ℤ :=
  match tx.phasesUsed with
  | none => -1
  | some pu =>
    if getChargingStationCurrentType cs tx.connectorId = CurrentType.AC then
      let n := (if pu.csPhase1 then 1 else 0) + (if pu.csPhase2 then 1 else 0) +
        (if pu.csPhase3 then 1 else 0)
      if n = 0 then -1 else n
    else -1

/-- `overrideCarWithRuntimeData` from the source: applies measured phase
flags, recomputes min/max current on the measured phase count, and when
sticky limitation is enabled clamps the maximum per-phase current toward
the instantaneous draw (AC on measured phases, DC on instantaneous
power). -/
def overrideCarWithRuntimeData (st : Setting) (profiles : List ChargingProfile)
    (nowMinutes : ℚ) (cs : ChargingStation) (tx : Transaction) (car : OptimizerCar) :
    OptimizerCar :=
  match tx.phasesUsed with
  | some pu =>
    let n := getNumberOfUsedPhasesInTransactionInProgress cs tx
    if n ≠ -1 then
      let car1 :=
        if st.stickyLimitation then
          let increasing := checkIfCarIsIncreasingConsumption st profiles nowMinutes cs tx
            CurrentType.AC car (n : ℚ)
          if !increasing then
            if tx.currentInstantAmps > 0 then
              { car with maxCurrentPerPhase :=
                  roundTo (tx.currentInstantAmps / (n : ℚ) * (1 + st.limitBufferAC / 100)) }
            else
              { car with maxCurrentPerPhase := car.minCurrentPerPhase }
          else car
        else car
      { car1 with
        canLoadPhase1 := if pu.csPhase1 then 1 else 0
        canLoadPhase2 := if pu.csPhase2 then 1 else 0
        canLoadPhase3 := if pu.csPhase3 then 1 else 0
        minCurrent := car1.minCurrentPerPhase * (n : ℚ)
        maxCurrent := car1.maxCurrentPerPhase * (n : ℚ) }
    else car
  | none =>
    if getChargingStationCurrentType cs tx.connectorId = CurrentType.DC ∧
        tx.currentInstantWattsDC > 0 ∧ st.stickyLimitation then
      let increasing := checkIfCarIsIncreasingConsumption st profiles nowMinutes cs tx
        CurrentType.DC car 0
      if !increasing then
        let currentInstantAmps := convertWattToAmp cs tx.currentInstantWattsDC
        let m := roundTo (currentInstantAmps / 3 * (1 + st.limitBufferDC / 100))
        { car with maxCurrentPerPhase := m, maxCurrent := m * 3 }
      else car
    else car

/-- `buildSafeCar` from the source: the baseline car model for a session,
with the arrival timestamp clipping and the configured minimum current. -/
def buildSafeCar (k : Consts) (fuseID : Nat) (cs : ChargingStation) (tx : Transaction)
    (currentTimeSeconds : ℚ) : OptimizerCar :=
  let voltage := getChargingStationVoltage cs
  let maxConnectorAmpsPerPhase := getChargingStationAmperagePerPhase cs tx.connectorId
  let tArr := tx.timestampArrivalSecondsFromMidnight
  { id := fuseID
    canLoadPhase1 := 1
    canLoadPhase2 := 1
    canLoadPhase3 := 1
    timestampArrival :=
      if currentTimeSeconds > tArr then tArr
      else if currentTimeSeconds + 30 > tArr then currentTimeSeconds else 0
    carType := "BEV"
    maxCapacity := 100 * 1000 / voltage
    minLoadingState := 100 * 1000 / voltage * (1 / 2)
    startCapacity := tx.currentTotalConsumptionWh / voltage
    minCurrent := k.minLimitPerPhase * 3
    minCurrentPerPhase := k.minLimitPerPhase
    maxCurrent := maxConnectorAmpsPerPhase * 3
    maxCurrentPerPhase := maxConnectorAmpsPerPhase
    suspendable := true
    immediateStart := false
    canUseVariablePower := true
    nameStationID := tx.chargeBoxID
    nameConnectorId := tx.connectorId }

/-- Vehicle-profile override step of `buildCar`: the AC converter limit
on 3-phase AC stations, the DC fast-charge ceiling, and the battery
capacity override. -/
def applyCarProfileOverrides (carStore : Nat → Option Car) (cs : ChargingStation)
    (tx : Transaction) (customCar : OptimizerCar) : OptimizerCar :=
  let voltage := getChargingStationVoltage cs
  match tx.carID with
  | none => customCar
  | some carID =>
    let transactionCar := carStore carID
    let c1 :=
      if getChargingStationCurrentType cs tx.connectorId = CurrentType.AC ∧
          getNumberOfConnectedPhases cs none tx.connectorId = 3 then
        match transactionCar.bind (fun tc => tc.converter) with
        | some conv =>
          if conv.amperagePerPhase > 0 then
            { customCar with
              maxCurrentPerPhase := conv.amperagePerPhase
              maxCurrent := conv.amperagePerPhase * 3 }
          else customCar
        | none => customCar
      else if getChargingStationCurrentType cs tx.connectorId = CurrentType.DC then
        match transactionCar.bind (fun tc => tc.carCatalog) with
        | some cat =>
          if cat.fastChargePowerMax > 0 then
            let maxDCCurrent := convertWattToAmp cs (cat.fastChargePowerMax * 1000)
            let perPhase := roundTo (maxDCCurrent / 3)
            { customCar with maxCurrentPerPhase := perPhase, maxCurrent := perPhase * 3 }
          else customCar
        | none => customCar
      else customCar
    match transactionCar.bind (fun tc => tc.carCatalog) with
    | some cat =>
      if cat.batteryCapacityFull > 0 then
        { c1 with
          maxCapacity := cat.batteryCapacityFull * 1000 / voltage
          minLoadingState := cat.batteryCapacityFull * 1000 / voltage * (1 / 2) }
      else c1
    | none => c1

/-- DC grid-side compensation step of `buildCar`: divides the final
per-phase maximum by `efficiency / 100` (default constant over 100 when
no positive efficiency is declared, exactly as this path of the source
does). -/
def applyDCGridEfficiency (k : Consts) (cs : ChargingStation) (tx : Transaction)
    (customCar : OptimizerCar) : OptimizerCar :=
  if getChargingStationCurrentType cs tx.connectorId = CurrentType.DC then
    let cp :=
      match getConnectorFromID cs tx.connectorId with
      | some conn => getChargePointFromID cs conn.chargePointID
      | none => none
    match cp with
    | some p =>
      match p.efficiency with
      | some e =>
        if e > 0 then
          let perPhase := customCar.maxCurrentPerPhase / (e / 100)
          { customCar with maxCurrentPerPhase := perPhase, maxCurrent := perPhase * 3 }
        else
          let perPhase := customCar.maxCurrentPerPhase / (k.dcDefaultEffPercent / 100)
          { customCar with maxCurrentPerPhase := perPhase, maxCurrent := perPhase * 3 }
      | none =>
        let perPhase := customCar.maxCurrentPerPhase / (k.dcDefaultEffPercent / 100)
        { customCar with maxCurrentPerPhase := perPhase, maxCurrent := perPhase * 3 }
    | none =>
      let perPhase := customCar.maxCurrentPerPhase / (k.dcDefaultEffPercent / 100)
      { customCar with maxCurrentPerPhase := perPhase, maxCurrent := perPhase * 3 }
  else customCar

/-- `buildCar` from the source: the safe car, then the vehicle-profile
overrides, then the runtime override, then the DC grid-side efficiency
compensation — the same sequential mutation the source performs. -/
def buildCar (k : Consts) (st : Setting) (carStore : Nat → Option Car)
    (profiles : List ChargingProfile) (nowMinutes : ℚ) (fuseID : Nat)
    (cs : ChargingStation) (tx : Transaction) (currentTimeSeconds : ℚ) : OptimizerCar :=
  applyDCGridEfficiency k cs tx
    (overrideCarWithRuntimeData st profiles nowMinutes cs tx
      (applyCarProfileOverrides carStore cs tx (buildSafeCar k fuseID cs tx currentTimeSeconds)))

/-- Car-to-connector assignment of the request. -/
structure CarAssignment where
  carID : Nat
  chargingStationID : Nat
  deriving DecidableEq

/-- Root fuse of the request tree. -/
structure RootFuse where
  id : Nat
  fusePhase1 : ℚ
  fusePhase2 : ℚ
  fusePhase3 : ℚ
  phase1Connected : Bool
  phase2Connected : Bool
  phase3Connected : Bool
  children : List StationFuse
  deriving DecidableEq

/-- Optimizer request state (`OptimizerChargingProfilesRequest`). -/
structure OptimizerRequest where
  rootFuse : RootFuse
  cars : List OptimizerCar
  carAssignments : List CarAssignment
  currentTimeSeconds : ℚ
  deriving DecidableEq

/-- External reads performed while building a request: the transaction
store, the vehicle store, the sticky-limitation profile snapshot, and the
current instant in minutes used to position running profiles. -/
structure BuildCtx where
  txStore : Nat → Option Transaction
  carStore : Nat → Option Car
  profiles : List ChargingProfile
  nowMinutes : ℚ

/-- Modelled from the spec: `checkIfSiteAreaIsValid` (defined on the base
integration class, not part of the provided source) rejects a site
lacking capacity, voltage, phase count, or charging stations. -/
def checkIfSiteAreaIsValid (sa : SiteArea) : Bool :=
  sa.maximumPower != 0 && sa.voltage != 0 && decide (sa.numberOfPhases ≠ 0) &&
    !sa.chargingStations.isEmpty

/-- `getTransactionFromChargingConnector` from the source: requires an
active transaction identifier that resolves in the store. -/
def getTransactionFromChargingConnector (ctx : BuildCtx) (c : Connector) :
    Except BuildErr Transaction :=
  match c.currentTransactionID with
  | none => Except.error BuildErr.noActiveTransaction
  | some tid =>
    match ctx.txStore tid with
    | none => Except.error BuildErr.transactionNotFound
    | some tx => Except.ok tx

/-- Reverse-order pass of `adjustSiteLimitation` over one station's
connectors (the source loops with a descending index): removes the first
encountered connector of each charge point excluded from power
limitation, accumulating the removed charge points' amperage; charge
points already processed are skipped. -/
def pruneConnectorsRev (cs : ChargingStation) :
    List Connector → List String → List Connector × ℚ
  | [], _ => ([], 0)
  | c :: rest, processed =>
    match c.chargePointID with
    | some cpID =>
      match getChargePointFromID cs (some cpID) with
      | some cp =>
        if cp.excludeFromPowerLimitation && !processed.contains cp.chargePointID then
          let r := pruneConnectorsRev cs rest (cp.chargePointID :: processed)
          (r.1, r.2 + getChargingStationAmperage cp)
        else
          let r := pruneConnectorsRev cs rest processed
          (c :: r.1, r.2)
      | none =>
        let r := pruneConnectorsRev cs rest processed
        (c :: r.1, r.2)
    | none =>
      let r := pruneConnectorsRev cs rest processed
      (c :: r.1, r.2)

/-- Connector pruning of `adjustSiteLimitation` for one station: the
surviving connectors in their original order and the amperage removed. -/
def pruneConnectors (cs : ChargingStation) : List Connector × ℚ :=
  let r := pruneConnectorsRev cs cs.connectors.reverse []
  (r.1.reverse, r.2)

/-- Per-station step of `adjustSiteLimitation`: an excluded station is
dropped entirely (removing its full rated amperage); otherwise its
connectors are pruned and the station is dropped when none survive. -/
def adjustStation (excluded : List String) (cs : ChargingStation) :
    Option ChargingStation × ℚ :=
  if cs.excludeFromSmartCharging || excluded.contains cs.id then
    (none, cs.maximumPower / getChargingStationVoltage cs)
  else
    let r := pruneConnectors cs
    let cs1 := { cs with connectors := r.1 }
    (if r.1.isEmpty then none else some cs1, r.2)

/-- `adjustSiteLimitation` from the source: removes excluded stations and
excluded charge points' connectors, reduces the site capacity by the
removed amperage, clamps to zero, and overwrites `maximumPower` only when
the final capacity differs from the original. -/
def adjustSiteLimitation (sa : SiteArea) (excluded : List String) : SiteArea :=
  let originalSiteMaxAmps := sa.maximumPower / sa.voltage
  let results := sa.chargingStations.map (adjustStation excluded)
  let stations := results.filterMap Prod.fst
  let siteMaxAmps := originalSiteMaxAmps - (results.map Prod.snd).sum
  let siteMaxAmps := if siteMaxAmps < 0 then 0 else siteMaxAmps
  if siteMaxAmps ≠ originalSiteMaxAmps then
    { sa with chargingStations := stations, maximumPower := siteMaxAmps * sa.voltage }
  else
    { sa with chargingStations := stations }

/-- Accumulator of the inner connector loop of `buildOptimizerRequest`:
the running fuse identifier, the three per-phase amperage sums, and the
connector fuses, cars and assignments pushed so far. -/
structure ConnLoopAcc where
  fuseID : Nat
  sum1 : ℚ
  sum2 : ℚ
  sum3 : ℚ
  fuses : List ConnectorFuse
  cars : List OptimizerCar
  assignments : List CarAssignment

/-- Inner connector loop of `buildOptimizerRequest`: per connector it
resolves the transaction, builds the connector fuse, adds its per-phase
capacity to the running sums, builds the car with the same identifier,
records the car assignment, and advances the identifier counter. -/
def buildConnectorsAux (k : Consts) (st : Setting) (ctx : BuildCtx) (cs : ChargingStation)
    (currentTimeSeconds : ℚ) : List Connector → ConnLoopAcc → Except BuildErr ConnLoopAcc
  | [], acc => Except.ok acc
  | c :: rest, acc => do
    let tx ← getTransactionFromChargingConnector ctx c
    let cf ← buildChargingStationConnectorFuse k cs acc.fuseID c
    let car := buildCar k st ctx.carStore ctx.profiles ctx.nowMinutes acc.fuseID cs tx
      currentTimeSeconds
    buildConnectorsAux k st ctx cs currentTimeSeconds rest
      { fuseID := acc.fuseID + 1
        sum1 := acc.sum1 + cf.fusePhase1
        sum2 := acc.sum2 + cf.fusePhase2
        sum3 := acc.sum3 + cf.fusePhase3
        fuses := acc.fuses ++ [cf]
        cars := acc.cars ++ [car]
        assignments := acc.assignments ++ [⟨acc.fuseID, acc.fuseID⟩] }

/-- Accumulator of the outer station loop of `buildOptimizerRequest`. -/
structure StationLoopAcc where
  fuseID : Nat
  stationFuses : List StationFuse
  cars : List OptimizerCar
  assignments : List CarAssignment

/-- Outer station loop of `buildOptimizerRequest`: per station it runs the
connector loop, builds the station fuse from the accumulated sums, and
pushes it to the root children only when it has children. -/
def buildStationsAux (k : Consts) (st : Setting) (ctx : BuildCtx) (currentTimeSeconds : ℚ) :
    List ChargingStation → StationLoopAcc → Except BuildErr StationLoopAcc
  | [], acc => Except.ok acc
  | cs :: rest, acc => do
    let out ← buildConnectorsAux k st ctx cs currentTimeSeconds cs.connectors
      ⟨acc.fuseID, 0, 0, 0, [], [], []⟩
    let sf := buildChargingStationFuse out.fuseID out.sum1 out.sum2 out.sum3 out.fuses
    buildStationsAux k st ctx currentTimeSeconds rest
      { fuseID := out.fuseID + 1
        stationFuses := acc.stationFuses ++ (if sf.children.length > 0 then [sf] else [])
        cars := acc.cars ++ out.cars
        assignments := acc.assignments ++ out.assignments }

/-- `buildOptimizerRequest` from the source: validity check, site
limitation adjustment, root fuse from the adjusted capacity split over
the active phases (root takes identifier 0 from the sequential counter),
then the station loop. -/
def buildOptimizerRequest (k : Consts) (st : Setting) (ctx : BuildCtx) (sa : SiteArea)
    (currentTimeSeconds : ℚ) (excluded : List String) : Except BuildErr OptimizerRequest := do
  if !checkIfSiteAreaIsValid sa then
    Except.error BuildErr.invalidSiteArea
  else
    let sa := adjustSiteLimitation sa excluded
    let siteMaxAmps := sa.maximumPower / sa.voltage
    let siteMaxAmpsPerPhase := siteMaxAmps / (sa.numberOfPhases : ℚ)
    let out ← buildStationsAux k st ctx currentTimeSeconds sa.chargingStations ⟨1, [], [], []⟩
    Except.ok
      { rootFuse :=
          { id := 0
            fusePhase1 := siteMaxAmpsPerPhase
            fusePhase2 := if sa.numberOfPhases > 1 then siteMaxAmpsPerPhase else 0
            fusePhase3 := if sa.numberOfPhases > 1 then siteMaxAmpsPerPhase else 0
            phase1Connected := true
            phase2Connected := sa.numberOfPhases > 1
            phase3Connected := sa.numberOfPhases > 1
            children := out.stationFuses }
        cars := out.cars
        carAssignments := out.assignments
        currentTimeSeconds := currentTimeSeconds }

/-- One car of the optimizer's response: the identifier pair encoded in
`name` (already split into station identifier and connector identifier)
and the per-15-minute-slot plan indexed from local midnight. -/
structure RespCar where
  nameStationID : String
  nameConnectorId : Nat
  currentPlan : List ℚ
  deriving DecidableEq

/-- `calculateCarConsumption` from the source: AC multiplies the plan
value by the connected phase count; DC additionally multiplies by the
declared efficiency over 100, or — exactly as the source does — by the
raw default percent constant when no positive efficiency is declared. -/
def calculateCarConsumption (k : Consts) (cs : ChargingStation) (c : Connector)
    (numberOfConnectedPhase : Nat) (currentLimit : ℚ) : ℚ :=
  if getChargingStationCurrentType cs c.connectorId = CurrentType.DC then
    match getChargePointFromID cs c.chargePointID with
    | some cp =>
      match cp.efficiency with
      | some e =>
        if e > 0 then roundTo (currentLimit * e / 100 * (numberOfConnectedPhase : ℚ))
        else roundTo (currentLimit * k.dcDefaultEffPercent * (numberOfConnectedPhase : ℚ))
      | none => roundTo (currentLimit * k.dcDefaultEffPercent * (numberOfConnectedPhase : ℚ))
    | none => roundTo (currentLimit * k.dcDefaultEffPercent * (numberOfConnectedPhase : ℚ))
  else roundTo (currentLimit * (numberOfConnectedPhase : ℚ))

/-- Period-emission loop of `buildChargingProfilesFromOptimizerResponse`:
`slot` counts the periods already emitted (the source's
`currentTimeSlotMins`, which also equals the schedule length), `start` is
the slot index of the current instant, `cap` the maximum period count.
The loop continues while the cap has not been walked, the plan has not
run out, and the plan value is positive or fewer than 3 periods exist. -/
def emitPeriods (limitOf : ℚ → ℚ) (cap : ℤ) (plan : List ℚ) (start : Nat) :
    Nat → Nat → List ChargingSchedulePeriod
  | _, 0 => []
  | slot, fuel + 1 =>
    if (slot : ℤ) < cap ∧ start + slot < plan.length ∧
        (0 < plan.getD (start + slot) 0 ∨ slot < 3) then
      ⟨slot * 900, limitOf (plan.getD (start + slot) 0)⟩ ::
        emitPeriods limitOf cap plan start (slot + 1) fuel
    else []

/-- Translation of one response car into a charging profile, following
`buildChargingProfilesFromOptimizerResponse`: re-resolve the station and
connector, read the parsed `ChargingScheduleMaxPeriods` parameter
(`none` models the unparsable/absent `NaN` case, which the loop replaces
with the fixed cap of 20), emit the periods, and set the duration to the
emitted period count times 900 seconds. -/
def buildChargingProfileForCar (k : Consts) (csStore : String → Option ChargingStation)
    (paramStore : String → Option ℤ) (startScheduleMinutes : ℚ)
    (currentDurationFromMidnightMins : ℚ) (car : RespCar) : Except BuildErr ChargingProfile :=
  match csStore car.nameStationID with
  | none => Except.error BuildErr.chargingStationNotFound
  | some cs =>
    match getConnectorFromID cs car.nameConnectorId with
    | none => Except.error BuildErr.connectorNotFound
    | some conn =>
      let chargePoint := getChargePointFromID cs conn.chargePointID
      let numberOfConnectedPhase :=
        match chargePoint with
        | some cp => getNumberOfConnectedPhases cs (some cp) conn.connectorId
        | none => conn.numberOfConnectedPhase
      let maxScheduleLength := paramStore car.nameStationID
      let cap : ℤ := maxScheduleLength.getD 20
      let start : Nat := (⌊currentDurationFromMidnightMins / 15⌋).toNat
      let periods := emitPeriods
        (fun v => calculateCarConsumption k cs conn numberOfConnectedPhase v)
        cap car.currentPlan start 0 (car.currentPlan.length + 1)
      Except.ok
        { chargingStationID := car.nameStationID
          connectorID := car.nameConnectorId
          chargePointID := chargePoint.map (fun cp => cp.chargePointID)
          profile :=
            { chargingProfileId := car.nameConnectorId
              transactionId := conn.currentTransactionID
              stackLevel := 2
              chargingSchedule :=
                { startScheduleMinutes := startScheduleMinutes
                  chargingSchedulePeriod := periods
                  duration := periods.length * 900 } } }

/-- `buildChargingProfilesFromOptimizerResponse` from the source: the
per-car translation over all cars of the response, in order, aborting on
the first error. -/
def buildChargingProfilesFromOptimizerResponse (k : Consts)
    (csStore : String → Option ChargingStation) (paramStore : String → Option ℤ)
    (startScheduleMinutes : ℚ) (currentDurationFromMidnightMins : ℚ) :
    List RespCar → Except BuildErr (List ChargingProfile)
  | [] => Except.ok []
  | car :: rest => do
    let p ← buildChargingProfileForCar k csStore paramStore startScheduleMinutes
      currentDurationFromMidnightMins car
    let ps ← buildChargingProfilesFromOptimizerResponse k csStore paramStore
      startScheduleMinutes currentDurationFromMidnightMins rest
    Except.ok (p :: ps)

/-- `buildChargingProfiles` from the source: set the fetched stations on
the site, build the request, and when the request holds zero cars return
without a value (the source's bare `return;`) and without invoking the
optimizer; otherwise call the optimizer (`respond`) and translate its
response.  The boolean of the result records whether the outbound call
was issued. -/
def buildChargingProfiles (k : Consts) (st : Setting) (ctx : BuildCtx)
    (csStore : String → Option ChargingStation) (paramStore : String → Option ℤ)
    (fetchedStations : List ChargingStation) (sa : SiteArea)
    (currentDurationFromMidnightSeconds : ℚ) (excluded : List String)
    (respond : OptimizerRequest → List RespCar) (startScheduleMinutes : ℚ) :
    Except BuildErr (Option (List ChargingProfile) × Bool) := do
  let sa := { sa with chargingStations := fetchedStations }
  let request ← buildOptimizerRequest k st ctx sa currentDurationFromMidnightSeconds excluded
  if request.cars.length = 0 then
    Except.ok (none, false)
  else do
    let respCars := respond request
    let profiles ← buildChargingProfilesFromOptimizerResponse k csStore paramStore
      startScheduleMinutes (currentDurationFromMidnightSeconds / 60) respCars
    Except.ok (some profiles, true)

/-! ## Concrete fixtures used by witnesses and counterexamples -/

/-- Constants fixture: per-phase floor 6 A, default DC efficiency 80 %. -/
def kFix : Consts := ⟨6, 80⟩

/-- Settings fixture with sticky limitation disabled. -/
def stOff : Setting := ⟨false, 10, 10⟩

/-- Settings fixture with sticky limitation enabled and 10 % buffers. -/
def stSticky : Setting := ⟨true, 10, 10⟩

/-- An AC connector without a charge point, 3 phases, 30 A, charging. -/
def connAC : Connector :=
  { connectorId := 1, status := CPStatus.Charging, chargePointID := none
    numberOfConnectedPhase := 3, amperage := 30, currentType := CurrentType.AC
    currentTransactionID := some 1 }

/-- A transaction fixture for `connAC`. -/
def txAC : Transaction :=
  { id := 1, chargeBoxID := "CS1", connectorId := 1
    timestampArrivalSecondsFromMidnight := 0, currentTotalConsumptionWh := 0
    currentInstantAmps := 0, currentInstantWattsDC := 0, phasesUsed := none, carID := none }

/-- An AC station with a single connector and no charge points. -/
def csAC : ChargingStation :=
  { id := "CS1", excludeFromSmartCharging := false, maximumPower := 6900, voltage := 230
    chargePoints := [], connectors := [connAC] }

/-- Site fixture: 6 900 W at 230 V over 3 phases with one AC station. -/
def saAC : SiteArea :=
  { name := "SA", maximumPower := 6900, voltage := 230, numberOfPhases := 3
    chargingStations := [csAC] }

/-- Build context fixture resolving only transaction 1. -/
def ctxFix : BuildCtx :=
  { txStore := fun tid => if tid = 1 then some txAC else none
    carStore := fun _ => none, profiles := [], nowMinutes := 0 }

/-- A mutual-exclusion charge point serving connectors 1 and 2. -/
def cpME : ChargePoint :=
  { chargePointID := "CP1", excludeFromPowerLimitation := false
    sharePowerToAllConnectors := false, cannotChargeInParallel := true
    connectorIDs := [1, 2], amperage := 32, numberOfConnectedPhase := 3
    currentType := CurrentType.AC, efficiency := none }

/-- First connector of the mutual-exclusion charge point, charging. -/
def connME1 : Connector :=
  { connectorId := 1, status := CPStatus.Charging, chargePointID := some "CP1"
    numberOfConnectedPhase := 3, amperage := 32, currentType := CurrentType.AC
    currentTransactionID := some 1 }

/-- Second connector of the mutual-exclusion charge point, also active. -/
def connME2 : Connector :=
  { connectorId := 2, status := CPStatus.Charging, chargePointID := some "CP1"
    numberOfConnectedPhase := 3, amperage := 32, currentType := CurrentType.AC
    currentTransactionID := some 2 }

/-- Station with the mutual-exclusion charge point and both connectors
simultaneously in an active-charging status. -/
def csME : ChargingStation :=
  { id := "CSME", excludeFromSmartCharging := false, maximumPower := 22080, voltage := 230
    chargePoints := [cpME], connectors := [connME1, connME2] }

/-- A DC charge point without a declared efficiency. -/
def cpDCn : ChargePoint :=
  { chargePointID := "CPD", excludeFromPowerLimitation := false
    sharePowerToAllConnectors := false, cannotChargeInParallel := false
    connectorIDs := [1], amperage := 100, numberOfConnectedPhase := 3
    currentType := CurrentType.DC, efficiency := none }

/-- Connector of the efficiency-less DC charge point. -/
def connDCn : Connector :=
  { connectorId := 1, status := CPStatus.Charging, chargePointID := some "CPD"
    numberOfConnectedPhase := 3, amperage := 100, currentType := CurrentType.DC
    currentTransactionID := some 1 }

/-- DC station without a declared efficiency. -/
def csDCn : ChargingStation :=
  { id := "CSD", excludeFromSmartCharging := false, maximumPower := 50000, voltage := 230
    chargePoints := [cpDCn], connectors := [connDCn] }

/-- A DC charge point declaring 90 % efficiency. -/
def cpDC90 : ChargePoint :=
  { chargePointID := "CPE", excludeFromPowerLimitation := false
    sharePowerToAllConnectors := false, cannotChargeInParallel := false
    connectorIDs := [1], amperage := 100, numberOfConnectedPhase := 3
    currentType := CurrentType.DC, efficiency := some 90 }

/-- Connector of the 90-%-efficiency DC charge point. -/
def connDC90 : Connector :=
  { connectorId := 1, status := CPStatus.Charging, chargePointID := some "CPE"
    numberOfConnectedPhase := 3, amperage := 100, currentType := CurrentType.DC
    currentTransactionID := some 1 }

/-- DC station declaring 90 % efficiency. -/
def csDC90 : ChargingStation :=
  { id := "CSE", excludeFromSmartCharging := false, maximumPower := 50000, voltage := 230
    chargePoints := [cpDC90], connectors := [connDC90] }

/-! ## C3 — mutual exclusion forces a zero leaf and the build proceeds -/

/-- C3: the claim says a connector of a mutual-exclusion charge point
with more than one simultaneously active connector yields a fuse leaf of
per-phase capacity 0 and the build proceeds.  The code instead zeroes the
amperage and then trips the data-quality guard `!connectorAmps.totalAmps`,
so building the leaf for such a connector aborts the whole build with the
"cannot get the amperage" error rather than producing a zero leaf. -/
theorem mutual_exclusion_aborts_build :
    getConnectorNbrOfPhasesAndAmps csME connME1 = Except.error BuildErr.noAmps ∧
    buildChargingStationConnectorFuse kFix csME 5 connME1 = Except.error BuildErr.noAmps := by
  constructor
  · rfl
  · rfl

/-! ## C4 — plan value to schedule limit conversion -/

/-- C4: on an AC connector the emitted limit is the plan value times the
connected phase count, and on a DC connector with declared efficiency
`e`% it is additionally multiplied by `e / 100` (value 1 on 3 phases with
90 % gives 2.7); but in the default-efficiency branch the code multiplies
by the raw percent constant (80) instead of the constant over 100, so an
undeclared-efficiency DC connector yields 240 A for plan value 1 instead
of the claimed 2.4 A. -/
theorem calculateCarConsumption_eval :
    calculateCarConsumption kFix csAC connAC 3 1 = 3 ∧
    calculateCarConsumption kFix csDC90 connDC90 3 1 = 27 / 10 ∧
    calculateCarConsumption kFix csDCn connDCn 3 1 = 240 ∧
    roundTo (1 * (kFix.dcDefaultEffPercent / 100) * 3) = 12 / 5 ∧
    (240 : ℚ) ≠ 12 / 5 := by
  refine ⟨?_, ?_, ?_, ?_, by norm_num⟩ <;>
    (norm_num [calculateCarConsumption, getChargingStationCurrentType, getConnectorFromID,
      getChargePointFromID, csAC, connAC, csDC90, connDC90, cpDC90, csDCn, connDCn, cpDCn,
      kFix, roundTo, round_eq, List.find?]
     try decide)

/-! ## C2 — effective site capacity after `adjustSiteLimitation` -/

/-- Rated amperage of the charge point referenced by identifier `i`. -/
def excludedChargePointAmp (cs : ChargingStation) (i : String) : ℚ :=
  match getChargePointFromID cs (some i) with
  | some cp => getChargingStationAmperage cp
  | none => 0

/-- Whether identifier `i` resolves to a charge point excluded from power
limitation. -/
def isExcludedCPRef (cs : ChargingStation) (i : String) : Bool :=
  match getChargePointFromID cs (some i) with
  | some cp => cp.excludeFromPowerLimitation
  | none => false

/-- Charge point identifiers referenced by the given connectors that
resolve to a charge point excluded from power limitation. -/
def referencedExcludedCPIDs (cs : ChargingStation) (l : List Connector) : List String :=
  (l.filterMap (fun c => c.chargePointID)).filter (isExcludedCPRef cs)

/-- Second definition, following the claim's words: the reduction of the
effective site capacity is the rated amperage of every excluded charging
station plus, on surviving stations, the rated amperage of every excluded
charge point, counted once per charge point even when it serves several
connectors. -/
def claimedStationReduction (excluded : List String) (cs : ChargingStation) : ℚ :=
  if cs.excludeFromSmartCharging || excluded.contains cs.id then
    cs.maximumPower / cs.voltage
  else
    ((referencedExcludedCPIDs cs cs.connectors).dedup.map (excludedChargePointAmp cs)).sum

/-- Second definition, following the claim's words: the total capacity
reduction of a site. -/
def claimedSiteReduction (sa : SiteArea) (excluded : List String) : ℚ :=
  (sa.chargingStations.map (claimedStationReduction excluded)).sum

/-- Identifiers of the charge points whose amperage the reverse pruning
pass subtracts: the same recursion as `pruneConnectorsRev`, recording the
charge point identifier taken at each subtracting step. -/
def newExcludedIDs (cs : ChargingStation) : List Connector → List String → List String
  | [], _ => []
  | c :: rest, processed =>
    match c.chargePointID with
    | some cpID =>
      match getChargePointFromID cs (some cpID) with
      | some cp =>
        if cp.excludeFromPowerLimitation && !processed.contains cp.chargePointID then
          cp.chargePointID :: newExcludedIDs cs rest (cp.chargePointID :: processed)
        else newExcludedIDs cs rest processed
      | none => newExcludedIDs cs rest processed
    | none => newExcludedIDs cs rest processed

/-- A charge point found by identifier carries that identifier. -/
theorem getChargePointFromID_eq_id {cs : ChargingStation} {i : String} {cp : ChargePoint}
    (h : getChargePointFromID cs (some i) = some cp) : cp.chargePointID = i := by
  unfold getChargePointFromID at h
  have hp := List.find?_some h
  simpa using hp

/-- The amperage accumulated by the pruning pass is the sum of the
amperages of the charge points it takes. -/
theorem pruneConnectorsRev_amps (cs : ChargingStation) :
    ∀ (l : List Connector) (processed : List String),
      (pruneConnectorsRev cs l processed).2 =
        ((newExcludedIDs cs l processed).map (excludedChargePointAmp cs)).sum := by
  intro l
  induction l with
  | nil => intro processed; simp [pruneConnectorsRev, newExcludedIDs]
  | cons c rest ih =>
    intro processed
    cases hcp : c.chargePointID with
    | none =>
      simp only [pruneConnectorsRev, newExcludedIDs, hcp]
      exact ih processed
    | some cpID =>
      cases hfind : getChargePointFromID cs (some cpID) with
      | none =>
        simp only [pruneConnectorsRev, newExcludedIDs, hcp, hfind]
        exact ih processed
      | some cp =>
        by_cases hex :
            (cp.excludeFromPowerLimitation && !processed.contains cp.chargePointID) = true
        · have hamp : excludedChargePointAmp cs cp.chargePointID = getChargingStationAmperage cp := by
            unfold excludedChargePointAmp
            rw [getChargePointFromID_eq_id hfind, hfind]
          simp only [pruneConnectorsRev, newExcludedIDs, hcp, hfind, hex, if_true,
            List.map_cons, List.sum_cons, hamp]
          rw [ih (cp.chargePointID :: processed)]
          ring
        · simp only [pruneConnectorsRev, newExcludedIDs, hcp, hfind, hex,
            Bool.false_eq_true, if_false]
          exact ih processed

/-- Membership in the taken identifiers: exactly the referenced excluded
charge points not yet processed. -/
theorem mem_newExcludedIDs (cs : ChargingStation) :
    ∀ (l : List Connector) (processed : List String) (i : String),
      i ∈ newExcludedIDs cs l processed ↔
        i ∈ referencedExcludedCPIDs cs l ∧ i ∉ processed := by
  intro l
  induction l with
  | nil => intro processed i; simp [newExcludedIDs, referencedExcludedCPIDs]
  | cons c rest ih =>
    intro processed i
    cases hcp : c.chargePointID with
    | none =>
      simp only [newExcludedIDs, hcp]
      rw [ih]
      simp [referencedExcludedCPIDs, List.filterMap_cons, hcp]
    | some cpID =>
      cases hfind : getChargePointFromID cs (some cpID) with
      | none =>
        simp only [newExcludedIDs, hcp, hfind]
        rw [ih]
        have hpred : isExcludedCPRef cs cpID = false := by
          unfold isExcludedCPRef; rw [hfind]
        simp [referencedExcludedCPIDs, List.filterMap_cons, hcp, hpred]
      | some cp =>
        have hid := getChargePointFromID_eq_id hfind
        have hpred : isExcludedCPRef cs cpID = cp.excludeFromPowerLimitation := by
          unfold isExcludedCPRef; rw [hfind]
        by_cases hexF : cp.excludeFromPowerLimitation = true
        · by_cases hproc : cp.chargePointID ∈ processed
          · have hcond :
                (cp.excludeFromPowerLimitation && !processed.contains cp.chargePointID) = false := by
              simp [hexF, hproc]
            simp only [newExcludedIDs, hcp, hfind, hcond, Bool.false_eq_true, if_false]
            rw [ih]
            simp only [referencedExcludedCPIDs, List.filterMap_cons, hcp,
              List.filter_cons, hpred, hexF, if_true, List.mem_cons]
            constructor
            · rintro ⟨hm, hnp⟩
              exact ⟨Or.inr hm, hnp⟩
            · rintro ⟨hm | hm, hnp⟩
              · exact absurd (by rw [hm, ← hid]; exact hproc) hnp
              · exact ⟨hm, hnp⟩
          · have hcond :
                (cp.excludeFromPowerLimitation && !processed.contains cp.chargePointID) = true := by
              simp [hexF, hproc]
            simp only [newExcludedIDs, hcp, hfind, hcond, if_true, List.mem_cons]
            constructor
            · rintro (heq | hm)
              · subst heq
                refine ⟨?_, hid ▸ hproc⟩
                simp [referencedExcludedCPIDs, List.filterMap_cons, hcp, List.filter_cons,
                  hpred, hexF, hid]
              · rw [ih] at hm
                obtain ⟨hm1, hm2⟩ := hm
                have hne : i ≠ cp.chargePointID := by
                  intro he; exact hm2 (he ▸ List.mem_cons_self _ _)
                refine ⟨?_, fun hin => hm2 (List.mem_cons_of_mem _ hin)⟩
                simp only [referencedExcludedCPIDs, List.filterMap_cons, hcp,
                  List.filter_cons, hpred, hexF, if_true, List.mem_cons]
                exact Or.inr hm1
            · rintro ⟨hm, hnp⟩
              simp only [referencedExcludedCPIDs, List.filterMap_cons, hcp,
                List.filter_cons, hpred, hexF, if_true, List.mem_cons] at hm
              rcases hm with heq | hm
              · exact Or.inl (heq.trans hid.symm)
              · by_cases hne : i = cp.chargePointID
                · exact Or.inl hne
                · refine Or.inr ?_
                  rw [ih]
                  refine ⟨hm, ?_⟩
                  intro hin
                  rcases List.mem_cons.1 hin with h1 | h2
                  · exact hne h1
                  · exact hnp h2
        · have hcond :
              (cp.excludeFromPowerLimitation && !processed.contains cp.chargePointID) = false := by
            simp [hexF]
          simp only [newExcludedIDs, hcp, hfind, hcond, Bool.false_eq_true, if_false]
          rw [ih]
          have hexF' : isExcludedCPRef cs cpID = false := by
            rw [hpred]
            simpa using hexF
          simp [referencedExcludedCPIDs, List.filterMap_cons, hcp, List.filter_cons, hexF']

/-- The taken identifiers are pairwise distinct. -/
theorem nodup_newExcludedIDs (cs : ChargingStation) :
    ∀ (l : List Connector) (processed : List String), (newExcludedIDs cs l processed).Nodup := by
  intro l
  induction l with
  | nil => intro processed; simp [newExcludedIDs]
  | cons c rest ih =>
    intro processed
    cases hcp : c.chargePointID with
    | none => simp only [newExcludedIDs, hcp]; exact ih processed
    | some cpID =>
      cases hfind : getChargePointFromID cs (some cpID) with
      | none => simp only [newExcludedIDs, hcp, hfind]; exact ih processed
      | some cp =>
        by_cases hex :
            (cp.excludeFromPowerLimitation && !processed.contains cp.chargePointID) = true
        · simp only [newExcludedIDs, hcp, hfind, hex, if_true]
          refine List.Nodup.cons ?_ (ih _)
          intro hmem
          have := (mem_newExcludedIDs cs rest (cp.chargePointID :: processed)
            cp.chargePointID).1 hmem
          exact this.2 (List.mem_cons_self _ _)
        · simp only [newExcludedIDs, hcp, hfind, hex, Bool.false_eq_true, if_false]
          exact ih processed

/-- On an empty processed set over the reversed connector list, the taken
identifiers are a permutation of the deduplicated referenced excluded
charge point identifiers of the original list. -/
theorem newExcludedIDs_perm (cs : ChargingStation) (l : List Connector) :
    (newExcludedIDs cs l.reverse []).Perm (referencedExcludedCPIDs cs l).dedup := by
  refine (List.perm_ext_iff_of_nodup (nodup_newExcludedIDs cs l.reverse [])
    (List.nodup_dedup _)).2 ?_
  intro a
  rw [mem_newExcludedIDs, List.mem_dedup]
  simp [referencedExcludedCPIDs, List.mem_filter, List.mem_filterMap, List.mem_reverse]

/-- The amperage removed by connector pruning equals the claim-side
reduction: the sum over the distinct excluded charge points referenced by
the station's connectors. -/
theorem pruneConnectors_amps (cs : ChargingStation) :
    (pruneConnectors cs).2 =
      ((referencedExcludedCPIDs cs cs.connectors).dedup.map (excludedChargePointAmp cs)).sum := by
  unfold pruneConnectors
  rw [pruneConnectorsRev_amps]
  exact ((newExcludedIDs_perm cs cs.connectors).map _).sum_eq

/-- The per-station capacity reduction of the code equals the claim-side
per-station reduction. -/
theorem adjustStation_snd (excluded : List String) (cs : ChargingStation) :
    (adjustStation excluded cs).2 = claimedStationReduction excluded cs := by
  unfold adjustStation claimedStationReduction
  by_cases h : (cs.excludeFromSmartCharging || excluded.contains cs.id) = true
  · rw [if_pos h, if_pos h]
    rfl
  · rw [if_neg h, if_neg h]
    exact pruneConnectors_amps cs

/-- C2: after `adjustSiteLimitation` the effective site capacity in amps
equals the original capacity minus the rated amperage of every excluded
charging station and of every excluded charge point (counted once per
charge point), clamped to zero, and `maximumPower` is overwritten with
the reduced value only when the final capacity differs from the original.
The embedded function is total, so it never throws. -/
theorem adjustSiteLimitation_capacity (sa : SiteArea) (excluded : List String)
    (hv : sa.voltage ≠ 0) :
    (adjustSiteLimitation sa excluded).maximumPower / sa.voltage =
      max 0 (sa.maximumPower / sa.voltage - claimedSiteReduction sa excluded) ∧
    (adjustSiteLimitation sa excluded).maximumPower =
      (if max 0 (sa.maximumPower / sa.voltage - claimedSiteReduction sa excluded) =
          sa.maximumPower / sa.voltage then sa.maximumPower
       else
         max 0 (sa.maximumPower / sa.voltage - claimedSiteReduction sa excluded) * sa.voltage) := by
  have hsum : ((sa.chargingStations.map (adjustStation excluded)).map Prod.snd).sum =
      claimedSiteReduction sa excluded := by
    unfold claimedSiteReduction
    rw [List.map_map]
    congr 1
    apply List.map_congr_left
    intro cs _
    exact adjustStation_snd excluded cs
  set orig := sa.maximumPower / sa.voltage with horig
  set red := claimedSiteReduction sa excluded with hred
  have hclamp : (if orig - red < 0 then (0 : ℚ) else orig - red) = max 0 (orig - red) := by
    rcases lt_or_le (orig - red) 0 with h | h
    · simp [h, max_eq_left h.le]
    · simp [not_lt.2 h, max_eq_right h]
  simp only [adjustSiteLimitation]
  rw [hsum, ← horig, hclamp]
  by_cases hne : max 0 (orig - red) ≠ orig
  · rw [if_pos hne, if_neg hne]
    exact ⟨mul_div_cancel_right₀ _ hv, rfl⟩
  · push_neg at hne
    rw [if_neg (not_not_intro hne), if_pos hne]
    refine ⟨?_, rfl⟩
    rw [hne, horig]

/-- An excluded-from-power-limitation charge point serving two
connectors. -/
def cpExcl : ChargePoint :=
  { chargePointID := "CPX", excludeFromPowerLimitation := true
    sharePowerToAllConnectors := false, cannotChargeInParallel := false
    connectorIDs := [1, 2], amperage := 20, numberOfConnectedPhase := 3
    currentType := CurrentType.AC, efficiency := none }

/-- First connector of the excluded charge point. -/
def connX1 : Connector :=
  { connectorId := 1, status := CPStatus.Charging, chargePointID := some "CPX"
    numberOfConnectedPhase := 3, amperage := 20, currentType := CurrentType.AC
    currentTransactionID := some 3 }

/-- Second connector of the excluded charge point. -/
def connX2 : Connector :=
  { connectorId := 2, status := CPStatus.Charging, chargePointID := some "CPX"
    numberOfConnectedPhase := 3, amperage := 20, currentType := CurrentType.AC
    currentTransactionID := some 4 }

/-- A charging station excluded from smart charging outright. -/
def csExcl : ChargingStation :=
  { id := "ST-EX", excludeFromSmartCharging := true, maximumPower := 30, voltage := 1
    chargePoints := [], connectors := [] }

/-- A surviving station whose charge point is excluded from power
limitation and serves two connectors. -/
def csCPex : ChargingStation :=
  { id := "ST-CP", excludeFromSmartCharging := false, maximumPower := 1000, voltage := 1
    chargePoints := [cpExcl], connectors := [connX1, connX2] }

/-- Site fixture for the sanitizer: capacity 100 A at 1 V. -/
def saC2 : SiteArea :=
  { name := "SA2", maximumPower := 100, voltage := 1, numberOfPhases := 3
    chargingStations := [csExcl, csCPex] }

/-- Witness for C2 at a concrete site: an excluded station rated 30 A and
an excluded charge point rated 20 A serving two connectors reduce a
100 A site to 50 A (the charge point counted once). -/
theorem adjustSiteLimitation_capacity_witness :
    ((adjustSiteLimitation saC2 []).maximumPower / saC2.voltage =
       max 0 (saC2.maximumPower / saC2.voltage - claimedSiteReduction saC2 []) ∧
     (adjustSiteLimitation saC2 []).maximumPower =
       (if max 0 (saC2.maximumPower / saC2.voltage - claimedSiteReduction saC2 []) =
           saC2.maximumPower / saC2.voltage then saC2.maximumPower
        else
          max 0 (saC2.maximumPower / saC2.voltage - claimedSiteReduction saC2 []) *
            saC2.voltage)) ∧
    (adjustSiteLimitation saC2 []).maximumPower = 50 :=
  ⟨adjustSiteLimitation_capacity saC2 [] (by norm_num [saC2]), by
    norm_num [adjustSiteLimitation, adjustStation, pruneConnectors, pruneConnectorsRev,
      getChargePointFromID, getChargingStationVoltage, getChargingStationAmperage,
      saC2, csExcl, csCPex, connX1, connX2, cpExcl, List.find?]⟩

/-! ## C7 — zero cars: benign short-circuit without calling the optimizer -/

/-- Bind of a successful `Except` computation reduces to its
continuation. -/
theorem exceptOkBind {ε α β : Type} (a : α) (f : α → Except ε β) :
    (Except.ok a : Except ε α) >>= f = f a := rfl

/-- A charging station with no connectors (fetched with an empty
active-connector list). -/
def csNoConn : ChargingStation :=
  { id := "CS0", excludeFromSmartCharging := false, maximumPower := 1000, voltage := 230
    chargePoints := [], connectors := [] }

/-- Base site fixture for the orchestrator. -/
def saBase : SiteArea :=
  { name := "S0", maximumPower := 6900, voltage := 230, numberOfPhases := 3
    chargingStations := [] }

/-- Empty charging-station store. -/
def csStoreNone : String → Option ChargingStation := fun _ => none

/-- Empty OCPP-parameter store. -/
def paramStoreNone : String → Option ℤ := fun _ => none

/-- Optimizer stub returning no cars. -/
def respondEmpty : OptimizerRequest → List RespCar := fun _ => []

/-- C7 counterexample: with zero surviving cars `buildChargingProfiles`
returns without a profile list (the source's bare `return;`, i.e.
`undefined`) and does not call the optimizer — it does not return an
empty list as the claim states. -/
theorem buildChargingProfiles_noCars_counterexample :
    buildChargingProfiles kFix stOff ctxFix csStoreNone paramStoreNone [csNoConn] saBase 0 []
        respondEmpty 0 = Except.ok (none, false) ∧
    buildChargingProfiles kFix stOff ctxFix csStoreNone paramStoreNone [csNoConn] saBase 0 []
        respondEmpty 0 ≠ Except.ok (some ([] : List ChargingProfile), false) := by
  have h : buildChargingProfiles kFix stOff ctxFix csStoreNone paramStoreNone [csNoConn] saBase
      0 [] respondEmpty 0 = Except.ok (none, false) := by
    norm_num [buildChargingProfiles, buildOptimizerRequest, buildStationsAux,
      checkIfSiteAreaIsValid, adjustSiteLimitation, adjustStation, pruneConnectors,
      pruneConnectorsRev, saBase, csNoConn, exceptOkBind,
      getChargingStationVoltage]
  refine ⟨h, ?_⟩
  rw [h]
  intro hcontra
  simp at hcontra

/-- C7 amended: if the built request holds zero cars, the orchestrator
returns `undefined` (no profile list) — not an empty list — and never
issues the outbound optimizer call. -/
theorem buildChargingProfiles_noCars (k : Consts) (st : Setting) (ctx : BuildCtx)
    (csStore : String → Option ChargingStation) (paramStore : String → Option ℤ)
    (fetched : List ChargingStation) (sa : SiteArea) (t : ℚ) (excl : List String)
    (respond : OptimizerRequest → List RespCar) (ssm : ℚ) (req : OptimizerRequest)
    (hreq : buildOptimizerRequest k st ctx { sa with chargingStations := fetched } t excl =
      Except.ok req)
    (hcars : req.cars.length = 0) :
    buildChargingProfiles k st ctx csStore paramStore fetched sa t excl respond ssm =
      Except.ok (none, false) := by
  unfold buildChargingProfiles
  simp only [hreq, exceptOkBind]
  rw [if_pos hcars]

/-- Witness for the amended C7 at the concrete no-car site. -/
theorem buildChargingProfiles_noCars_witness :
    buildChargingProfiles kFix stOff ctxFix csStoreNone paramStoreNone [csNoConn] saBase 0 []
        respondEmpty 0 = Except.ok (none, false) :=
  buildChargingProfiles_noCars kFix stOff ctxFix csStoreNone paramStoreNone [csNoConn] saBase
    0 [] respondEmpty 0
    { rootFuse :=
        { id := 0, fusePhase1 := 10, fusePhase2 := 10, fusePhase3 := 10
          phase1Connected := true, phase2Connected := true, phase3Connected := true
          children := [] }
      cars := [], carAssignments := [], currentTimeSeconds := 0 }
    (by
      norm_num [buildOptimizerRequest, buildStationsAux, checkIfSiteAreaIsValid,
        adjustSiteLimitation, adjustStation, pruneConnectors, pruneConnectorsRev,
        saBase, csNoConn, exceptOkBind, getChargingStationVoltage])
    rfl

/-! ## C6 — sticky limitation clamps the AC maximum toward the draw -/

/-- C6: with sticky limitation enabled, measured phase usage on an AC
session, and the vehicle not judged to be increasing its consumption, the
runtime override sets the car's maximum current per phase to the
instantaneous draw per used phase times `1 + bufferAC/100` when the draw
is positive, and to the configured minimum per-phase current when the
draw is zero (or negative, which the code treats the same way). -/
theorem sticky_limitation_clamps_ac (st : Setting) (profiles : List ChargingProfile)
    (nowMinutes : ℚ) (cs : ChargingStation) (tx : Transaction) (car : OptimizerCar)
    (pu : PhasesUsed) (n : ℤ)
    (hsticky : st.stickyLimitation = true)
    (hpu : tx.phasesUsed = some pu)
    (hn : getNumberOfUsedPhasesInTransactionInProgress cs tx = n)
    (hnv : n ≠ -1)
    (hinc : checkIfCarIsIncreasingConsumption st profiles nowMinutes cs tx CurrentType.AC car
      (n : ℚ) = false) :
    (overrideCarWithRuntimeData st profiles nowMinutes cs tx car).maxCurrentPerPhase =
      (if tx.currentInstantAmps > 0 then
        roundTo (tx.currentInstantAmps / (n : ℚ) * (1 + st.limitBufferAC / 100))
      else car.minCurrentPerPhase) := by
  unfold overrideCarWithRuntimeData
  rw [hpu]
  simp only [hn, hnv, if_true, hsticky, hinc, Bool.not_false, if_pos hnv]
  by_cases hamp : tx.currentInstantAmps > 0
  · rw [if_pos hamp, if_pos hamp]
  · rw [if_neg hamp, if_neg hamp]

/-- Station fixture for the sticky witness: single-phase AC connector
without a charge point. -/
def csSticky : ChargingStation :=
  { id := "CS1", excludeFromSmartCharging := false, maximumPower := 7360, voltage := 230
    chargePoints := []
    connectors := [{ connectorId := 1, status := CPStatus.Charging, chargePointID := none
                     numberOfConnectedPhase := 1, amperage := 32
                     currentType := CurrentType.AC, currentTransactionID := some 7 }] }

/-- Transaction fixture: drawing 20 A on one measured phase. -/
def txSticky : Transaction :=
  { id := 7, chargeBoxID := "CS1", connectorId := 1
    timestampArrivalSecondsFromMidnight := 0, currentTotalConsumptionWh := 0
    currentInstantAmps := 20, currentInstantWattsDC := 0
    phasesUsed := some ⟨true, false, false⟩, carID := none }

/-- Previously issued profile fixture assigning 32 A to this session. -/
def profSticky : ChargingProfile :=
  { chargingStationID := "CS1", connectorID := 1, chargePointID := none
    profile :=
      { chargingProfileId := 1, transactionId := some 7, stackLevel := 2
        chargingSchedule :=
          { startScheduleMinutes := 0
            chargingSchedulePeriod := [⟨0, 32⟩], duration := 900 } } }

/-- Car-model fixture before the runtime override: hardware ceiling
32 A per phase, configured minimum 6 A per phase. -/
def carSticky : OptimizerCar :=
  { id := 1, canLoadPhase1 := 1, canLoadPhase2 := 1, canLoadPhase3 := 1
    timestampArrival := 0, carType := "BEV", maxCapacity := 100, minLoadingState := 50
    startCapacity := 0, minCurrent := 18, minCurrentPerPhase := 6
    maxCurrent := 96, maxCurrentPerPhase := 32
    suspendable := true, immediateStart := false, canUseVariablePower := true
    nameStationID := "CS1", nameConnectorId := 1 }

/-- Witness for C6: previous limit 32 A/phase, buffer 10 %, vehicle
drawing 20 A/phase on 1 phase — the maximum is clamped toward the draw
plus buffer (22 A), not left at the 32 A ceiling. -/
theorem sticky_limitation_clamps_ac_witness :
    (overrideCarWithRuntimeData stSticky [profSticky] 10 csSticky txSticky
        carSticky).maxCurrentPerPhase =
      (if txSticky.currentInstantAmps > 0 then
        roundTo (txSticky.currentInstantAmps / ((1 : ℤ) : ℚ) *
          (1 + stSticky.limitBufferAC / 100))
      else carSticky.minCurrentPerPhase) ∧
    (overrideCarWithRuntimeData stSticky [profSticky] 10 csSticky txSticky
        carSticky).maxCurrentPerPhase = 22 := by
  have h1 := sticky_limitation_clamps_ac stSticky [profSticky] 10 csSticky txSticky carSticky
    ⟨true, false, false⟩ 1
    rfl rfl
    (by norm_num [getNumberOfUsedPhasesInTransactionInProgress, txSticky,
      getChargingStationCurrentType, getConnectorFromID, getChargePointFromID, csSticky,
      List.find?])
    (by norm_num)
    (by
      norm_num [checkIfCarIsIncreasingConsumption, stSticky, profSticky, txSticky, csSticky,
        carSticky, getCurrentSapSmartChargingProfileLimit, getNumberOfConnectedPhases,
        getConnectorFromID, getChargePointFromID, List.find?, List.filter])
  refine ⟨h1, ?_⟩
  rw [h1]
  norm_num [txSticky, stSticky, roundTo, round_eq]

/-! ## C1, C8, C9 — request-build invariants -/

/-- Conservation at a station fuse: each per-phase capacity equals the
sum of the corresponding per-phase capacities of its connector leaves. -/
def fuseConservation (sf : StationFuse) : Prop :=
  sf.fusePhase1 = (sf.children.map (fun cf => cf.fusePhase1)).sum ∧
  sf.fusePhase2 = (sf.children.map (fun cf => cf.fusePhase2)).sum ∧
  sf.fusePhase3 = (sf.children.map (fun cf => cf.fusePhase3)).sum

/-- Identifiers of the fuse-tree nodes below the root in construction
order: for each station, its connector leaves then the station fuse. -/
def stationIdTrace (sfs : List StationFuse) : List Nat :=
  (sfs.map (fun sf => sf.children.map (fun cf => cf.id) ++ [sf.id])).flatten

/-- Identifiers of the connector leaf fuses in construction order. -/
def leafIdsOf (sfs : List StationFuse) : List Nat :=
  (sfs.map (fun sf => sf.children.map (fun cf => cf.id))).flatten

/-- Station fuses of a build result (empty when the build failed). -/
def stationFusesOf (r : Except BuildErr OptimizerRequest) : List StationFuse :=
  match r with
  | Except.ok req => req.rootFuse.children
  | Except.error _ => []

/-- Bind of a failed `Except` computation propagates the error. -/
theorem exceptErrorBind {ε α β : Type} (e : ε) (f : α → Except ε β) :
    (Except.error e : Except ε α) >>= f = Except.error e := rfl

/-- A successfully built connector fuse carries the identifier it was
built with. -/
theorem buildChargingStationConnectorFuse_id {k : Consts} {cs : ChargingStation}
    {fuseID : Nat} {c : Connector} {cf : ConnectorFuse}
    (h : buildChargingStationConnectorFuse k cs fuseID c = Except.ok cf) : cf.id = fuseID := by
  unfold buildChargingStationConnectorFuse at h
  cases hca : getConnectorNbrOfPhasesAndAmps cs c with
  | error e => rw [hca, exceptErrorBind] at h; cases h
  | ok ca =>
    rw [hca, exceptOkBind] at h
    cases h
    rfl

/-- The runtime override never changes the car identifier. -/
theorem overrideCarWithRuntimeData_id (st : Setting) (profiles : List ChargingProfile)
    (nowMinutes : ℚ) (cs : ChargingStation) (tx : Transaction) (car : OptimizerCar) :
    (overrideCarWithRuntimeData st profiles nowMinutes cs tx car).id = car.id := by
  unfold overrideCarWithRuntimeData
  cases tx.phasesUsed <;> dsimp only <;> repeat' split
  all_goals rfl

/-- The car built for a connector carries the fuse identifier it was
built with. -/
theorem buildCar_id (k : Consts) (st : Setting) (carStore : Nat → Option Car)
    (profiles : List ChargingProfile) (nowMinutes : ℚ) (fuseID : Nat) (cs : ChargingStation)
    (tx : Transaction) (t : ℚ) :
    (buildCar k st carStore profiles nowMinutes fuseID cs tx t).id = fuseID := by
  have hprof : ∀ car : OptimizerCar, (applyCarProfileOverrides carStore cs tx car).id = car.id := by
    intro car
    unfold applyCarProfileOverrides
    dsimp only
    repeat' split
    all_goals rfl
  have hdc : ∀ car : OptimizerCar, (applyDCGridEfficiency k cs tx car).id = car.id := by
    intro car
    unfold applyDCGridEfficiency
    dsimp only
    repeat' split
    all_goals rfl
  unfold buildCar
  rw [hdc, overrideCarWithRuntimeData_id, hprof]
  rfl

/-- Delta of the connector loop: on success it appends one fuse, one car
and one assignment per connector, all carrying consecutive identifiers
from the running counter, and accumulates exactly the per-phase sums of
the appended fuses. -/
theorem buildConnectorsAux_delta (k : Consts) (st : Setting) (ctx : BuildCtx)
    (cs : ChargingStation) (t : ℚ) :
    ∀ (l : List Connector) (acc out : ConnLoopAcc),
      buildConnectorsAux k st ctx cs t l acc = Except.ok out →
      ∃ (F : List ConnectorFuse) (C : List OptimizerCar) (A : List CarAssignment),
        out.fuses = acc.fuses ++ F ∧ out.cars = acc.cars ++ C ∧
        out.assignments = acc.assignments ++ A ∧
        out.fuseID = acc.fuseID + l.length ∧
        F.map (fun cf => cf.id) = List.range' acc.fuseID l.length ∧
        C.map (fun c => c.id) = List.range' acc.fuseID l.length ∧
        A.map (fun a => a.carID) = List.range' acc.fuseID l.length ∧
        A.map (fun a => a.chargingStationID) = List.range' acc.fuseID l.length ∧
        out.sum1 = acc.sum1 + (F.map (fun cf => cf.fusePhase1)).sum ∧
        out.sum2 = acc.sum2 + (F.map (fun cf => cf.fusePhase2)).sum ∧
        out.sum3 = acc.sum3 + (F.map (fun cf => cf.fusePhase3)).sum := by
  intro l
  induction l with
  | nil =>
    intro acc out h
    refine ⟨[], [], [], ?_⟩
    have hao : acc = out := by
      unfold buildConnectorsAux at h
      cases h
      rfl
    subst hao
    simp [List.range']
  | cons c rest ih =>
    intro acc out h
    rw [buildConnectorsAux] at h
    cases htx : getTransactionFromChargingConnector ctx c with
    | error e => rw [htx, exceptErrorBind] at h; cases h
    | ok tx =>
      rw [htx, exceptOkBind] at h
      cases hcf : buildChargingStationConnectorFuse k cs acc.fuseID c with
      | error e => rw [hcf, exceptErrorBind] at h; cases h
      | ok cf =>
        rw [hcf, exceptOkBind] at h
        obtain ⟨F, C, A, h1, h2, h3, h4, h5, h6, h7, h8, h9, h10, h11⟩ := ih _ _ h
        refine ⟨cf :: F,
          buildCar k st ctx.carStore ctx.profiles ctx.nowMinutes acc.fuseID cs tx t :: C,
          ⟨acc.fuseID, acc.fuseID⟩ :: A, ?_, ?_, ?_, ?_, ?_, ?_, ?_, ?_, ?_, ?_, ?_⟩
        · rw [h1]; simp
        · rw [h2]; simp
        · rw [h3]; simp
        · rw [h4]; simp only [List.length_cons]; omega
        · rw [List.length_cons, List.range'_succ, List.map_cons,
            buildChargingStationConnectorFuse_id hcf, h5]
        · rw [List.length_cons, List.range'_succ, List.map_cons, buildCar_id, h6]
        · rw [List.length_cons, List.range'_succ, List.map_cons, h7]
        · rw [List.length_cons, List.range'_succ, List.map_cons, h8]
        · rw [h9]; simp only [List.map_cons, List.sum_cons]; ring
        · rw [h10]; simp only [List.map_cons, List.sum_cons]; ring
        · rw [h11]; simp only [List.map_cons, List.sum_cons]; ring

/-- Invariant carried by the station loop: strictly increasing node
identifiers below `acc.fuseID` and at least `lo`, conservation at every
station fuse, and the one-to-one correlation between leaf identifiers,
car identifiers and assignments. -/
def stationInv (lo : Nat) (acc : StationLoopAcc) : Prop :=
  List.Pairwise (· < ·) (stationIdTrace acc.stationFuses) ∧
  (∀ i ∈ stationIdTrace acc.stationFuses, lo ≤ i ∧ i < acc.fuseID) ∧
  (∀ sf ∈ acc.stationFuses, fuseConservation sf) ∧
  leafIdsOf acc.stationFuses = acc.cars.map (fun c => c.id) ∧
  acc.cars.map (fun c => c.id) = acc.assignments.map (fun a => a.carID) ∧
  acc.assignments.map (fun a => a.carID) = acc.assignments.map (fun a => a.chargingStationID)

/-- `stationIdTrace` distributes over append. -/
theorem stationIdTrace_append (xs ys : List StationFuse) :
    stationIdTrace (xs ++ ys) = stationIdTrace xs ++ stationIdTrace ys := by
  unfold stationIdTrace
  rw [List.map_append, List.flatten_append]

/-- `leafIdsOf` distributes over append. -/
theorem leafIdsOf_append (xs ys : List StationFuse) :
    leafIdsOf (xs ++ ys) = leafIdsOf xs ++ leafIdsOf ys := by
  unfold leafIdsOf
  rw [List.map_append, List.flatten_append]

/-- The station loop preserves the invariant and advances the counter. -/
theorem buildStationsAux_inv (k : Consts) (st : Setting) (ctx : BuildCtx) (t : ℚ) :
    ∀ (l : List ChargingStation) (acc out : StationLoopAcc) (lo : Nat),
      buildStationsAux k st ctx t l acc = Except.ok out →
      stationInv lo acc → lo ≤ acc.fuseID →
      stationInv lo out ∧ acc.fuseID ≤ out.fuseID := by
  intro l
  induction l with
  | nil =>
    intro acc out lo h hinv hlo
    have hao : acc = out := by
      unfold buildStationsAux at h
      cases h
      rfl
    subst hao
    exact ⟨hinv, le_refl _⟩
  | cons cs rest ih =>
    intro acc out lo h hinv hlo
    obtain ⟨hPW, hBD, hCons, hLeaf, hCA, hAA⟩ := hinv
    rw [buildStationsAux] at h
    cases hconn : buildConnectorsAux k st ctx cs t cs.connectors
        ⟨acc.fuseID, 0, 0, 0, [], [], []⟩ with
    | error e => rw [hconn, exceptErrorBind] at h; cases h
    | ok o =>
      rw [hconn, exceptOkBind] at h
      obtain ⟨F, C, A, h1, h2, h3, h4, h5, h6, h7, h8, h9, h10, h11⟩ :=
        buildConnectorsAux_delta k st ctx cs t cs.connectors _ o hconn
      simp only [List.nil_append] at h1 h2 h3
      dsimp only at h4 h5 h6 h7 h8 h9 h10 h11
      set n := cs.connectors.length with hn
      have hsum1 : o.sum1 = (F.map (fun cf => cf.fusePhase1)).sum := by
        rw [h9]; ring
      have hsum2 : o.sum2 = (F.map (fun cf => cf.fusePhase2)).sum := by
        rw [h10]; ring
      have hsum3 : o.sum3 = (F.map (fun cf => cf.fusePhase3)).sum := by
        rw [h11]; ring
      -- the freshly built station fuse
      have hchildren :
          (buildChargingStationFuse o.fuseID o.sum1 o.sum2 o.sum3 o.fuses).children = F := by
        rw [← h1]; rfl
      have hsfid : (buildChargingStationFuse o.fuseID o.sum1 o.sum2 o.sum3 o.fuses).id =
          o.fuseID := rfl
      have hConsSf : fuseConservation (buildChargingStationFuse o.fuseID o.sum1 o.sum2 o.sum3
          o.fuses) := by
        refine ⟨?_, ?_, ?_⟩ <;> rw [hchildren] <;>
          first
            | exact hsum1
            | exact hsum2
            | exact hsum3
      -- identifiers of the new block
      have hblockIds : F.map (fun cf => cf.id) ++
          [(buildChargingStationFuse o.fuseID o.sum1 o.sum2 o.sum3 o.fuses).id] =
          List.range' acc.fuseID (n + 1) := by
        rw [hsfid, h5, h4, List.range'_1_concat]
      -- invariant at the accumulated state passed to the tail
      have hinv' : stationInv lo
          { fuseID := o.fuseID + 1
            stationFuses := acc.stationFuses ++
              (if (buildChargingStationFuse o.fuseID o.sum1 o.sum2 o.sum3 o.fuses).children.length
                  > 0 then [buildChargingStationFuse o.fuseID o.sum1 o.sum2 o.sum3 o.fuses]
               else [])
            cars := acc.cars ++ o.cars
            assignments := acc.assignments ++ o.assignments } := by
        by_cases hF : (buildChargingStationFuse o.fuseID o.sum1 o.sum2 o.sum3
            o.fuses).children.length > 0
        · rw [if_pos hF]
          unfold stationInv
          dsimp only
          have hblockTrace : stationIdTrace [buildChargingStationFuse o.fuseID o.sum1 o.sum2
              o.sum3 o.fuses] = List.range' acc.fuseID (n + 1) := by
            unfold stationIdTrace
            simp only [List.map_cons, List.map_nil, List.flatten]
            rw [List.append_nil, hchildren]
            exact hblockIds
          have hblockLeaf : leafIdsOf [buildChargingStationFuse o.fuseID o.sum1 o.sum2 o.sum3
              o.fuses] = List.range' acc.fuseID n := by
            unfold leafIdsOf
            simp only [List.map_cons, List.map_nil, List.flatten]
            rw [List.append_nil, hchildren]
            exact h5
          refine ⟨?_, ?_, ?_, ?_, ?_, ?_⟩
          · rw [stationIdTrace_append, List.pairwise_append, hblockTrace]
            refine ⟨hPW, List.pairwise_lt_range' _ _ 1 (by omega), ?_⟩
            intro a ha b hb
            have hab := (hBD a ha).2
            have hbb := (List.mem_range'_1.1 hb).1
            omega
          · intro i hi
            rw [stationIdTrace_append, List.mem_append, hblockTrace] at hi
            rcases hi with hi | hi
            · have := hBD i hi
              omega
            · have := List.mem_range'_1.1 hi
              have h4' := h4
              omega
          · intro sf hsf
            rw [List.mem_append] at hsf
            rcases hsf with hsf | hsf
            · exact hCons sf hsf
            · rw [List.mem_singleton] at hsf
              subst hsf
              exact hConsSf
          · rw [leafIdsOf_append, hblockLeaf, List.map_append, hLeaf, h2, h6]
          · rw [h2, h3, List.map_append, List.map_append, hCA, h6, h7]
          · rw [h3, List.map_append, List.map_append, h7, h8, hAA]
        · have hFnil : F = [] := by
            rw [hchildren] at hF
            exact List.length_eq_zero.1 (by omega)
          have hn0 : n = 0 := by
            have := congrArg List.length h5
            rw [hFnil] at this
            simpa using this.symm
          have h6' : List.map (fun c => c.id) C = [] := by rw [h6, hn0]; rfl
          have hCnil : C = [] := List.map_eq_nil_iff.mp h6'
          have h7' : List.map (fun a => a.carID) A = [] := by rw [h7, hn0]; rfl
          have hAnil : A = [] := List.map_eq_nil_iff.mp h7'
          rw [if_neg hF, List.append_nil, h2, h3, hCnil, hAnil, List.append_nil,
            List.append_nil]
          unfold stationInv
          dsimp only
          refine ⟨hPW, ?_, hCons, hLeaf, hCA, hAA⟩
          intro i hi
          have := hBD i hi
          omega
      have hstep := ih _ out lo h hinv' (by show lo ≤ o.fuseID + 1; omega)
      refine ⟨hstep.1, ?_⟩
      have h2step : o.fuseID + 1 ≤ out.fuseID := hstep.2
      omega

/-- The station loop starts from identifier 1 (the root took 0), with
empty accumulators, trivially satisfying the invariant. -/
theorem stationInv_init : stationInv 1 ⟨1, [], [], []⟩ := by
  unfold stationInv stationIdTrace leafIdsOf
  simp

/-- Inversion of a successful request build: the result's children, cars
and assignments come from the station loop started at identifier 1, and
the root fuse carries identifier 0. -/
theorem buildOptimizerRequest_inv (k : Consts) (st : Setting) (ctx : BuildCtx) (sa : SiteArea)
    (t : ℚ) (excl : List String) (req : OptimizerRequest)
    (h : buildOptimizerRequest k st ctx sa t excl = Except.ok req) :
    ∃ out : StationLoopAcc,
      buildStationsAux k st ctx t (adjustSiteLimitation sa excl).chargingStations
        ⟨1, [], [], []⟩ = Except.ok out ∧
      req.rootFuse.id = 0 ∧
      req.rootFuse.children = out.stationFuses ∧
      req.cars = out.cars ∧ req.carAssignments = out.assignments := by
  unfold buildOptimizerRequest at h
  by_cases hv : (!checkIfSiteAreaIsValid sa) = true
  · rw [if_pos hv] at h
    cases h
  · rw [if_neg hv] at h
    dsimp only at h
    cases hout : buildStationsAux k st ctx t (adjustSiteLimitation sa excl).chargingStations
        ⟨1, [], [], []⟩ with
    | error e =>
      rw [hout, exceptErrorBind] at h
      cases h
    | ok out =>
      rw [hout, exceptOkBind] at h
      cases h
      exact ⟨out, rfl, rfl, rfl, rfl, rfl⟩

/-- C1: in every successfully built optimizer request, each station fuse
node's three per-phase capacity fields equal the arithmetic sums of the
corresponding per-phase capacity fields of its connector leaf children. -/
theorem station_fuse_conservation (k : Consts) (st : Setting) (ctx : BuildCtx) (sa : SiteArea)
    (t : ℚ) (excl : List String) (sf : StationFuse)
    (h : sf ∈ stationFusesOf (buildOptimizerRequest k st ctx sa t excl)) :
    fuseConservation sf := by
  cases hr : buildOptimizerRequest k st ctx sa t excl with
  | error e =>
    unfold stationFusesOf at h
    rw [hr] at h
    simp only [] at h
    cases h
  | ok req =>
    unfold stationFusesOf at h
    rw [hr] at h
    simp only [] at h
    obtain ⟨out, hout, _, hch, _, _⟩ := buildOptimizerRequest_inv k st ctx sa t excl req hr
    have hinv := buildStationsAux_inv k st ctx t _ _ out 1 hout stationInv_init (le_refl 1)
    exact hinv.1.2.2.1 sf (hch ▸ h)

/-- C8: in every successfully built optimizer request the root fuse has
identifier 0, and the fuse-tree node identifiers in construction order
(root, then per station its connector leaves followed by the station
fuse) are strictly increasing, hence pairwise unique. -/
theorem fuse_ids_sequential (k : Consts) (st : Setting) (ctx : BuildCtx) (sa : SiteArea)
    (t : ℚ) (excl : List String) (req : OptimizerRequest)
    (h : buildOptimizerRequest k st ctx sa t excl = Except.ok req) :
    req.rootFuse.id = 0 ∧
    List.Pairwise (· < ·) (req.rootFuse.id :: stationIdTrace req.rootFuse.children) ∧
    (req.rootFuse.id :: stationIdTrace req.rootFuse.children).Nodup := by
  obtain ⟨out, hout, hid, hch, _, _⟩ := buildOptimizerRequest_inv k st ctx sa t excl req h
  have hinv := buildStationsAux_inv k st ctx t _ _ out 1 hout stationInv_init (le_refl 1)
  obtain ⟨⟨hPW, hBD, _, _, _, _⟩, _⟩ := hinv
  have hp : List.Pairwise (· < ·)
      (req.rootFuse.id :: stationIdTrace req.rootFuse.children) := by
    rw [hid, hch]
    refine List.Pairwise.cons ?_ hPW
    intro b hb
    have := (hBD b hb).1
    omega
  exact ⟨hid, hp, hp.imp (fun hlt => Nat.ne_of_lt hlt)⟩

/-- C9: in every successfully built optimizer request the cars and the
car assignments have equal length, each assignment pairs equal `carID`
and `chargingStationID` values, and these identifiers agree index-wise
with the car identifiers and with the connector leaf fuse identifiers in
construction order. -/
theorem car_assignment_correlation (k : Consts) (st : Setting) (ctx : BuildCtx) (sa : SiteArea)
    (t : ℚ) (excl : List String) (req : OptimizerRequest)
    (h : buildOptimizerRequest k st ctx sa t excl = Except.ok req) :
    req.cars.length = req.carAssignments.length ∧
    req.carAssignments.map (fun a => a.carID) =
      req.carAssignments.map (fun a => a.chargingStationID) ∧
    req.cars.map (fun c => c.id) = req.carAssignments.map (fun a => a.carID) ∧
    leafIdsOf req.rootFuse.children = req.cars.map (fun c => c.id) := by
  obtain ⟨out, hout, _, hch, hcars, hasg⟩ := buildOptimizerRequest_inv k st ctx sa t excl req h
  have hinv := buildStationsAux_inv k st ctx t _ _ out 1 hout stationInv_init (le_refl 1)
  obtain ⟨⟨_, _, _, hLeaf, hCA, hAA⟩, _⟩ := hinv
  rw [hch, hcars, hasg]
  refine ⟨?_, hAA, hCA, hLeaf⟩
  have := congrArg List.length hCA
  simpa using this

/-- Connector leaf fuse produced for `connAC` (id 1, 10 A per phase). -/
def cfFix : ConnectorFuse := ⟨1, 10, 10, 10, true, true, true⟩

/-- Station fuse produced for `csAC` (id 2, sums of its single leaf). -/
def sfFix : StationFuse := ⟨2, 10, 10, 10, true, true, true, [cfFix]⟩

/-- Car model produced for `txAC` on `csAC`. -/
def carFix : OptimizerCar :=
  { id := 1, canLoadPhase1 := 1, canLoadPhase2 := 1, canLoadPhase3 := 1
    timestampArrival := 0, carType := "BEV", maxCapacity := 10000 / 23
    minLoadingState := 5000 / 23, startCapacity := 0, minCurrent := 18
    minCurrentPerPhase := 6, maxCurrent := 30, maxCurrentPerPhase := 10
    suspendable := true, immediateStart := false, canUseVariablePower := true
    nameStationID := "CS1", nameConnectorId := 1 }

/-- Request produced for the `saAC` fixture. -/
def reqFix : OptimizerRequest :=
  { rootFuse := ⟨0, 10, 10, 10, true, true, true, [sfFix]⟩
    cars := [carFix], carAssignments := [⟨1, 1⟩], currentTimeSeconds := 0 }

/-- Concrete evaluation of the request build on the `saAC` fixture. -/
theorem buildOptimizerRequest_fix :
    buildOptimizerRequest kFix stOff ctxFix saAC 0 [] = Except.ok reqFix := by
  norm_num [buildOptimizerRequest, buildStationsAux, buildConnectorsAux,
    checkIfSiteAreaIsValid, adjustSiteLimitation, adjustStation, pruneConnectors,
    pruneConnectorsRev, getTransactionFromChargingConnector,
    buildChargingStationConnectorFuse, getConnectorNbrOfPhasesAndAmps,
    buildChargingStationFuse, buildCar, buildSafeCar, applyCarProfileOverrides,
    applyDCGridEfficiency, overrideCarWithRuntimeData, getChargingStationCurrentType,
    getConnectorFromID, getChargePointFromID, getChargingStationVoltage,
    getChargingStationAmperage, getChargingStationAmperagePerPhase,
    getNumberOfConnectedPhases, exceptOkBind, List.find?,
    kFix, stOff, ctxFix, saAC, csAC, connAC, txAC, reqFix, sfFix, cfFix, carFix]
  refine ⟨⟨by decide, ?_, by decide⟩, by decide⟩
  rw [if_neg (by decide)]
  norm_num

/-- Witness for C1 at the `saAC` fixture: the produced station fuse (10 A
on each phase) equals the sum of its single leaf. -/
theorem station_fuse_conservation_witness : fuseConservation sfFix := by
  have hmem : sfFix ∈ stationFusesOf (buildOptimizerRequest kFix stOff ctxFix saAC 0 []) := by
    rw [buildOptimizerRequest_fix]
    exact List.mem_singleton.mpr rfl
  exact station_fuse_conservation kFix stOff ctxFix saAC 0 [] sfFix hmem

/-- Witness for C8 at the `saAC` fixture: identifiers 0, 1, 2 in
construction order. -/
theorem fuse_ids_sequential_witness :
    reqFix.rootFuse.id = 0 ∧
    List.Pairwise (· < ·) (reqFix.rootFuse.id :: stationIdTrace reqFix.rootFuse.children) ∧
    (reqFix.rootFuse.id :: stationIdTrace reqFix.rootFuse.children).Nodup :=
  fuse_ids_sequential kFix stOff ctxFix saAC 0 [] reqFix buildOptimizerRequest_fix

/-- Witness for C9 at the `saAC` fixture: the single car, assignment and
leaf all carry identifier 1. -/
theorem car_assignment_correlation_witness :
    reqFix.cars.length = reqFix.carAssignments.length ∧
    reqFix.carAssignments.map (fun a => a.carID) =
      reqFix.carAssignments.map (fun a => a.chargingStationID) ∧
    reqFix.cars.map (fun c => c.id) = reqFix.carAssignments.map (fun a => a.carID) ∧
    leafIdsOf reqFix.rootFuse.children = reqFix.cars.map (fun c => c.id) :=
  car_assignment_correlation kFix stOff ctxFix saAC 0 [] reqFix buildOptimizerRequest_fix

/-! ## C5, C10 — period emission of the plan translator -/

/-- Continue-condition of the emission loop when `s` periods have been
emitted: the maximum period count has not been walked, the plan has not
run out, and the current slot value is positive or fewer than 3 periods
exist. -/
def emitContinue (cap : ℤ) (plan : List ℚ) (start : Nat) (s : Nat) : Prop :=
  (s : ℤ) < cap ∧ start + s < plan.length ∧ (0 < plan.getD (start + s) 0 ∨ s < 3)

/-- Characterization of the emission loop: every emitted period satisfied
the continue-condition, the loop stops exactly at the first violated
condition, and the `j`-th period carries offset `(slot + j) * 900` and the
translated value of plan slot `start + slot + j`. -/
theorem emitPeriods_spec (limitOf : ℚ → ℚ) (cap : ℤ) (plan : List ℚ) (start : Nat) :
    ∀ (fuel slot : Nat), plan.length + 1 ≤ fuel + slot →
      (∀ j < (emitPeriods limitOf cap plan start slot fuel).length,
        emitContinue cap plan start (slot + j)) ∧
      ¬ emitContinue cap plan start
        (slot + (emitPeriods limitOf cap plan start slot fuel).length) ∧
      (∀ j < (emitPeriods limitOf cap plan start slot fuel).length,
        (emitPeriods limitOf cap plan start slot fuel).getD j ⟨0, 0⟩ =
          ⟨(slot + j) * 900, limitOf (plan.getD (start + slot + j) 0)⟩) := by
  intro fuel
  induction fuel with
  | zero =>
    intro slot hfuel
    refine ⟨?_, ?_, ?_⟩
    · intro j hj
      simp [emitPeriods] at hj
    · intro hc
      obtain ⟨_, h2, _⟩ := hc
      simp only [emitPeriods, List.length_nil, Nat.add_zero] at h2 ⊢
      omega
    · intro j hj
      simp [emitPeriods] at hj
  | succ fuel ih =>
    intro slot hfuel
    by_cases hc : emitContinue cap plan start slot
    · have hc' : (slot : ℤ) < cap ∧ start + slot < plan.length ∧
          (0 < plan.getD (start + slot) 0 ∨ slot < 3) := hc
      have hrw : emitPeriods limitOf cap plan start slot (fuel + 1) =
          ⟨slot * 900, limitOf (plan.getD (start + slot) 0)⟩ ::
            emitPeriods limitOf cap plan start (slot + 1) fuel := by
        rw [emitPeriods]
        rw [if_pos hc']
      obtain ⟨ih1, ih2, ih3⟩ := ih (slot + 1) (by omega)
      rw [hrw]
      refine ⟨?_, ?_, ?_⟩
      · intro j hj
        cases j with
        | zero => simpa using hc
        | succ j =>
          have := ih1 j (by simpa using hj)
          have hshift : slot + 1 + j = slot + (j + 1) := by omega
          rw [hshift] at this
          exact this
      · have hshift : slot + 1 + (emitPeriods limitOf cap plan start (slot + 1) fuel).length =
            slot + ((emitPeriods limitOf cap plan start (slot + 1) fuel).length + 1) := by
          omega
        rw [hshift] at ih2
        simpa using ih2
      · intro j hj
        cases j with
        | zero => simp
        | succ j =>
          have := ih3 j (by simpa using hj)
          have hs1 : slot + 1 + j = slot + (j + 1) := by omega
          have hs2 : start + (slot + 1) + j = start + slot + (j + 1) := by omega
          rw [hs1, hs2] at this
          simpa using this
    · have hc' : ¬ ((slot : ℤ) < cap ∧ start + slot < plan.length ∧
          (0 < plan.getD (start + slot) 0 ∨ slot < 3)) := hc
      have hrw : emitPeriods limitOf cap plan start slot (fuel + 1) = [] := by
        rw [emitPeriods]
        rw [if_neg hc']
      rw [hrw]
      refine ⟨?_, ?_, ?_⟩
      · intro j hj
        simp at hj
      · simpa using hc
      · intro j hj
        simp at hj

/-- Inversion of a successful per-car translation: the profile's periods
are the emission loop's output and the duration is 900 times their
count. -/
theorem buildChargingProfileForCar_inv (k : Consts)
    (csStore : String → Option ChargingStation) (paramStore : String → Option ℤ)
    (ssm : ℚ) (mins : ℚ) (car : RespCar) (p : ChargingProfile)
    (h : buildChargingProfileForCar k csStore paramStore ssm mins car = Except.ok p) :
    ∃ cs conn,
      csStore car.nameStationID = some cs ∧
      getConnectorFromID cs car.nameConnectorId = some conn ∧
      p.profile.chargingSchedule.chargingSchedulePeriod =
        emitPeriods
          (fun v => calculateCarConsumption k cs conn
            (match getChargePointFromID cs conn.chargePointID with
             | some cp => getNumberOfConnectedPhases cs (some cp) conn.connectorId
             | none => conn.numberOfConnectedPhase) v)
          ((paramStore car.nameStationID).getD 20) car.currentPlan
          (⌊mins / 15⌋).toNat 0 (car.currentPlan.length + 1) ∧
      p.profile.chargingSchedule.duration =
        p.profile.chargingSchedule.chargingSchedulePeriod.length * 900 := by
  unfold buildChargingProfileForCar at h
  cases hcs : csStore car.nameStationID with
  | none => rw [hcs] at h; cases h
  | some cs =>
    rw [hcs] at h
    cases hconn : getConnectorFromID cs car.nameConnectorId with
    | none =>
      simp only [] at h
      rw [hconn] at h
      cases h
    | some conn =>
      simp only [] at h
      rw [hconn] at h
      dsimp only at h
      cases h
      exact ⟨cs, conn, rfl, hconn, rfl, rfl⟩

/-- Each profile produced by the response translation comes from a
successful per-car translation. -/
theorem respTranslation_mem (k : Consts) (csStore : String → Option ChargingStation)
    (paramStore : String → Option ℤ) (ssm : ℚ) (mins : ℚ) :
    ∀ (cars : List RespCar) (ps : List ChargingProfile),
      buildChargingProfilesFromOptimizerResponse k csStore paramStore ssm mins cars =
        Except.ok ps →
      ∀ p ∈ ps, ∃ car ∈ cars,
        buildChargingProfileForCar k csStore paramStore ssm mins car = Except.ok p := by
  intro cars
  induction cars with
  | nil =>
    intro ps h p hp
    unfold buildChargingProfilesFromOptimizerResponse at h
    cases h
    cases hp
  | cons car rest ih =>
    intro ps h p hp
    rw [buildChargingProfilesFromOptimizerResponse] at h
    cases hone : buildChargingProfileForCar k csStore paramStore ssm mins car with
    | error e => rw [hone, exceptErrorBind] at h; cases h
    | ok p1 =>
      rw [hone, exceptOkBind] at h
      cases hrest : buildChargingProfilesFromOptimizerResponse k csStore paramStore ssm mins
          rest with
      | error e => rw [hrest, exceptErrorBind] at h; cases h
      | ok ps1 =>
        rw [hrest, exceptOkBind] at h
        cases h
        rcases List.mem_cons.1 hp with hp1 | hp1
        · subst hp1
          exact ⟨car, List.mem_cons_self _ _, hone⟩
        · obtain ⟨car1, hm, hc⟩ := ih ps1 hrest p hp1
          exact ⟨car1, List.mem_cons_of_mem _ hm, hc⟩

/-- The response translation produces one profile per response car, in
order. -/
theorem respTranslation_forall2 (k : Consts) (csStore : String → Option ChargingStation)
    (paramStore : String → Option ℤ) (ssm : ℚ) (mins : ℚ) :
    ∀ (cars : List RespCar) (ps : List ChargingProfile),
      buildChargingProfilesFromOptimizerResponse k csStore paramStore ssm mins cars =
        Except.ok ps →
      List.Forall₂ (fun car p =>
        buildChargingProfileForCar k csStore paramStore ssm mins car = Except.ok p)
        cars ps := by
  intro cars
  induction cars with
  | nil =>
    intro ps h
    unfold buildChargingProfilesFromOptimizerResponse at h
    cases h
    exact List.Forall₂.nil
  | cons car rest ih =>
    intro ps h
    rw [buildChargingProfilesFromOptimizerResponse] at h
    cases hone : buildChargingProfileForCar k csStore paramStore ssm mins car with
    | error e => rw [hone, exceptErrorBind] at h; cases h
    | ok p1 =>
      rw [hone, exceptOkBind] at h
      cases hrest : buildChargingProfilesFromOptimizerResponse k csStore paramStore ssm mins
          rest with
      | error e => rw [hrest, exceptErrorBind] at h; cases h
      | ok ps1 =>
        rw [hrest, exceptOkBind] at h
        cases h
        exact List.Forall₂.cons hone (ih ps1 hrest)

/-- C5: for every car of the optimizer response, the translation walks
`currentPlan` from slot index `⌊minutes-since-midnight / 15⌋` and stops
emitting exactly when the first of these holds: the station-specific
maximum period count (parsed `ChargingScheduleMaxPeriods`, defaulting to
the fixed cap of 20) has been walked, the index reaches the end of the
plan, or the slot value is not positive while at least 3 periods exist. -/
theorem emission_stop_characterization (k : Consts)
    (csStore : String → Option ChargingStation) (paramStore : String → Option ℤ)
    (ssm : ℚ) (mins : ℚ) (cars : List RespCar) (ps : List ChargingProfile)
    (hps : buildChargingProfilesFromOptimizerResponse k csStore paramStore ssm mins cars =
      Except.ok ps) :
    List.Forall₂ (fun (car : RespCar) (p : ChargingProfile) =>
      (∀ j < p.profile.chargingSchedule.chargingSchedulePeriod.length,
        emitContinue ((paramStore car.nameStationID).getD 20) car.currentPlan
          (⌊mins / 15⌋).toNat j) ∧
      ¬ emitContinue ((paramStore car.nameStationID).getD 20) car.currentPlan
        (⌊mins / 15⌋).toNat p.profile.chargingSchedule.chargingSchedulePeriod.length)
      cars ps := by
  have h2 := respTranslation_forall2 k csStore paramStore ssm mins cars ps hps
  refine h2.imp ?_
  intro car p hcp
  obtain ⟨cs, conn, _, _, hper, _⟩ :=
    buildChargingProfileForCar_inv k csStore paramStore ssm mins car p hcp
  rw [hper]
  obtain ⟨s1, s2, _⟩ := emitPeriods_spec
    (fun v => calculateCarConsumption k cs conn
      (match getChargePointFromID cs conn.chargePointID with
       | some cp => getNumberOfConnectedPhases cs (some cp) conn.connectorId
       | none => conn.numberOfConnectedPhase) v)
    ((paramStore car.nameStationID).getD 20) car.currentPlan (⌊mins / 15⌋).toNat
    (car.currentPlan.length + 1) 0 (by omega)
  constructor
  · intro j hj
    have := s1 j hj
    simpa using this
  · simpa using s2

/-- C10: every charging profile built from an optimizer response carries
a contiguous fixed-width schedule: the `j`-th emitted period starts at
`j * 900` seconds and the duration is 900 seconds times the period
count (0 for an empty schedule). -/
theorem schedule_periods_contiguous (k : Consts)
    (csStore : String → Option ChargingStation) (paramStore : String → Option ℤ)
    (ssm : ℚ) (mins : ℚ) (cars : List RespCar) (ps : List ChargingProfile)
    (hps : buildChargingProfilesFromOptimizerResponse k csStore paramStore ssm mins cars =
      Except.ok ps) (p : ChargingProfile) (hp : p ∈ ps) :
    (∀ j < p.profile.chargingSchedule.chargingSchedulePeriod.length,
      (p.profile.chargingSchedule.chargingSchedulePeriod.getD j ⟨0, 0⟩).startPeriod =
        j * 900) ∧
    p.profile.chargingSchedule.duration =
      900 * p.profile.chargingSchedule.chargingSchedulePeriod.length := by
  obtain ⟨car, _, hcp⟩ := respTranslation_mem k csStore paramStore ssm mins cars ps hps p hp
  obtain ⟨cs, conn, _, _, hper, hdur⟩ :=
    buildChargingProfileForCar_inv k csStore paramStore ssm mins car p hcp
  obtain ⟨_, _, s3⟩ := emitPeriods_spec
    (fun v => calculateCarConsumption k cs conn
      (match getChargePointFromID cs conn.chargePointID with
       | some cp => getNumberOfConnectedPhases cs (some cp) conn.connectorId
       | none => conn.numberOfConnectedPhase) v)
    ((paramStore car.nameStationID).getD 20) car.currentPlan (⌊mins / 15⌋).toNat
    (car.currentPlan.length + 1) 0 (by omega)
  constructor
  · intro j hj
    rw [hper] at hj ⊢
    have := s3 j hj
    rw [this]
    simp
  · rw [hdur]
    exact Nat.mul_comm _ _

/-- Station store for the response fixtures: resolves only `CS1`. -/
def csStoreFix : String → Option ChargingStation :=
  fun s => if s = "CS1" then some csAC else none

/-- Response car fixture: plan 5, 5, 0, 0, 0 for connector 1 of CS1. -/
def rcFix : RespCar := ⟨"CS1", 1, [5, 5, 0, 0, 0]⟩

/-- Charging profile produced for `rcFix` at midnight: three periods
(limits 15, 15, 0 on the 3-phase AC connector) and duration 2700 s. -/
def profFix : ChargingProfile :=
  { chargingStationID := "CS1", connectorID := 1, chargePointID := none
    profile :=
      { chargingProfileId := 1, transactionId := some 1, stackLevel := 2
        chargingSchedule :=
          { startScheduleMinutes := 0
            chargingSchedulePeriod := [⟨0, 15⟩, ⟨900, 15⟩, ⟨1800, 0⟩]
            duration := 2700 } } }

/-- Concrete evaluation of the response translation on `rcFix`. -/
theorem respTranslation_fix :
    buildChargingProfilesFromOptimizerResponse kFix csStoreFix paramStoreNone 0 0 [rcFix] =
      Except.ok [profFix] := by
  norm_num [buildChargingProfilesFromOptimizerResponse, buildChargingProfileForCar,
    emitPeriods, calculateCarConsumption, getConnectorFromID, getChargePointFromID,
    getNumberOfConnectedPhases, getChargingStationCurrentType, csStoreFix, paramStoreNone,
    rcFix, profFix, csAC, connAC, kFix, exceptOkBind, List.find?, roundTo, round_eq,
    List.getD, Option.getD]
  decide

/-- Witness for C5 at the `rcFix` fixture: three periods are emitted and
the stop happens at the fourth slot, whose value 0 meets the at-least-3
rule. -/
theorem emission_stop_characterization_witness :
    List.Forall₂ (fun (car : RespCar) (p : ChargingProfile) =>
      (∀ j < p.profile.chargingSchedule.chargingSchedulePeriod.length,
        emitContinue ((paramStoreNone car.nameStationID).getD 20) car.currentPlan
          (⌊(0 : ℚ) / 15⌋).toNat j) ∧
      ¬ emitContinue ((paramStoreNone car.nameStationID).getD 20) car.currentPlan
        (⌊(0 : ℚ) / 15⌋).toNat p.profile.chargingSchedule.chargingSchedulePeriod.length)
      [rcFix] [profFix] :=
  emission_stop_characterization kFix csStoreFix paramStoreNone 0 0 [rcFix] [profFix]
    respTranslation_fix

/-- Witness for C10 at the `rcFix` fixture: period offsets 0, 900, 1800
and duration 2700 = 900 times 3. -/
theorem schedule_periods_contiguous_witness :
    (∀ j < profFix.profile.chargingSchedule.chargingSchedulePeriod.length,
      (profFix.profile.chargingSchedule.chargingSchedulePeriod.getD j ⟨0, 0⟩).startPeriod =
        j * 900) ∧
    profFix.profile.chargingSchedule.duration =
      900 * profFix.profile.chargingSchedule.chargingSchedulePeriod.length :=
  schedule_periods_contiguous kFix csStoreFix paramStoreNone 0 0 [rcFix] [profFix]
    respTranslation_fix profFix (List.mem_singleton.mpr rfl)

end SapSmartCharging
